import Mathlib

/-!
Verification of the ecostressdownup repository's metadata-extraction and
CSV-reconciliation logic (`src/metadata.py`, `src/csv_handler.py`).

The Python code is shallowly embedded: Python dicts become association
lists over a scalar `Value` type (`Value.none` models Python `None`),
Python truthiness becomes `Value.truthy`, `re.search` for each concrete
pattern of the source becomes an explicit leftmost matcher, and
`datetime.fromisoformat` / `datetime.timestamp` become an executable ISO
8601 parser plus exact epoch arithmetic (parameterised by the local UTC
offset `tz`, in seconds, which Python uses for naive datetimes; `int()`
truncation toward zero is Lean's `Int` division).  Fallible Python code
(uncaught `KeyError` / `TypeError` / `IndexError`) returns `Except`/`Option`.
-/

namespace Ecostress

/-- A Python scalar value as it occurs in the metadata dictionaries:
`None`, a string, or an integer. -/
inductive Value where
  | none
  | str (s : String)
  | int (n : Int)
deriving DecidableEq, Repr

/-- Python truthiness for `Value`: `None`, `""` and `0` are falsy. -/
def Value.truthy : Value → Bool
  | .none => false
  | .str s => s ≠ ""
  | .int n => n ≠ 0

/-- `value is not None`. -/
def Value.isNotNone : Value → Bool
  | .none => false
  | _ => true

/-- A Python dict with string keys, as an association list in insertion
order (Python 3 dicts preserve insertion order and have unique keys). -/
abbrev Dict := List (String × Value)

/-- Dict lookup (`d[k]` / `d.get(k)`): first binding wins. -/
def dget (m : Dict) (k : String) : Option Value :=
  match m with
  | [] => Option.none
  | (k', v) :: t => if k' = k then some v else dget t k

/-- `k in d`. -/
def containsKey (m : Dict) (k : String) : Bool :=
  (dget m k).isSome

/-- Dict assignment `d[k] = v`: updates the binding in place if the key
exists (Python keeps its position), else appends. -/
def dinsert (m : Dict) (k : String) (v : Value) : Dict :=
  match m with
  | [] => [(k, v)]
  | (k', v') :: t => if k' = k then (k', v) :: t else (k', v') :: dinsert t k v

/-- `d.update(d2)`: assign every binding of `d2` into `d`, in order. -/
def dupdate (m : Dict) (d : Dict) : Dict :=
  d.foldl (fun acc kv => dinsert acc kv.1 kv.2) m

/-- Contiguous-sublist test on character lists. -/
def listIsInfix (a b : List Char) : Bool :=
  match b with
  | [] => a.isEmpty
  | _ :: t => a.isPrefixOf b || listIsInfix a t

/-- Python's `a in b` on strings: contiguous substring test. -/
def isSubstr (a b : String) : Bool :=
  listIsInfix a.toList b.toList

/-- Left-to-right, non-overlapping replacement on character lists, with
fuel (one unit per consumed character, so `cs.length` always suffices for
a non-empty pattern). -/
def pyReplaceAux (pat rep : List Char) : Nat → List Char → List Char
  | _, [] => []
  | 0, cs => cs
  | fuel + 1, c :: t =>
    if pat.isPrefixOf (c :: t) then
      rep ++ pyReplaceAux pat rep fuel (t.drop (pat.length - 1))
    else c :: pyReplaceAux pat rep fuel t

/-- Python's `str.replace`: replace every (left-to-right,
non-overlapping) occurrence of `pat` by `rep`; an empty pattern inserts
`rep` at every character boundary. -/
def pyReplace (s pat rep : String) : String :=
  if pat.toList.isEmpty then
    String.mk (rep.toList ++ s.toList.foldr (fun c acc => c :: (rep.toList ++ acc)) [])
  else String.mk (pyReplaceAux pat.toList rep.toList s.toList.length s.toList)

/-- Python's `str.lower` (ASCII range, which is all this data carries). -/
def pyToLower (s : String) : String :=
  String.mk (s.toList.map Char.toLower)

/-- Python's `str.endswith`. -/
def pyEndsWith (s suffix : String) : Bool :=
  suffix.toList.isSuffixOf s.toList

/-- `d.get(k, default)` convenience for structure fields modelling
optional dict entries. -/
def pyGet (v : Option Value) : Value :=
  v.getD (.str "")

-- ### Tile-ID codec (`metadata.get_epsg_from_mgrs`)

/-- `get_epsg_from_mgrs` from `src/metadata.py`: empty or too-short input
returns `""`; otherwise `"EPSG326"`/`"EPSG327"` (north/south, decided by
the third character being in `NPQRSTUVWX`) followed by the first two
characters. -/
def get_epsg_from_mgrs (mgrs_tile : String) : String :=
  let cs := mgrs_tile.toList
  if cs.length < 3 then ""
  else
    let utm_zone := String.mk (cs.take 2)
    let hemisphere_north := ("NPQRSTUVWX".toList).contains (cs.getD 2 ' ')
    if hemisphere_north then "EPSG326" ++ utm_zone else "EPSG327" ++ utm_zone

-- ### Filename pattern matchers (`metadata._extract_filename_metadata`)
-- Each Python `re.search(pattern, s)` is embedded as a matcher trying the
-- pattern at one position, plus `searchLeft`, which tries positions left
-- to right (the `re.search` strategy).  For these patterns the greedy
-- quantifier `\d+` is always followed by `_`, so maximal-munch digit runs
-- are the only candidates and no further backtracking is needed; the one
-- optional piece, `[A-Z]?` in the level pattern, is tried
-- greedily-then-empty as the regex engine does.

/-- `[A-Z]` character class. -/
def isAZ (c : Char) : Bool := 'A' ≤ c && c ≤ 'Z'

/-- Match exactly `n` characters satisfying `p`, returning them and the
rest. -/
def takeExactP (p : Char → Bool) : Nat → List Char → Option (List Char × List Char)
  | 0, cs => some ([], cs)
  | _ + 1, [] => Option.none
  | n + 1, c :: cs =>
    if p c then (takeExactP p n cs).map (fun gr => (c :: gr.1, gr.2)) else Option.none

/-- Match one literal character. -/
def lit (c : Char) : List Char → Option (List Char)
  | [] => Option.none
  | c' :: t => if c' = c then some t else Option.none

/-- Match a literal character sequence. -/
def litList : List Char → List Char → Option (List Char)
  | [], cs => some cs
  | _ :: _, [] => Option.none
  | l :: ls, c :: cs => if c = l then litList ls cs else Option.none

/-- Greedy `\d+`: the maximal non-empty digit run. -/
def digits1 (cs : List Char) : Option (List Char × List Char) :=
  let ds := cs.takeWhile Char.isDigit
  if ds.isEmpty then Option.none else some (ds, cs.dropWhile Char.isDigit)

/-- `re.search`: try the matcher at each position, leftmost first; the
empty suffix is also a position (for patterns matching empty input). -/
def searchLeft (m : List Char → Option (List Char)) : List Char → Option (List Char)
  | [] => m []
  | c :: t =>
    match m (c :: t) with
    | some g => some g
    | Option.none => searchLeft m t

/-- Pattern `T\d{6}_(\d{4}_\d{2})$` (`$` matches at the end of the string
or before one final newline, as in Python). -/
def matchProcessingID (cs : List Char) : Option (List Char) := do
  let t ← lit 'T' cs
  let (_, t) ← takeExactP Char.isDigit 6 t
  let t ← lit '_' t
  let (g1, t) ← takeExactP Char.isDigit 4 t
  let t ← lit '_' t
  let (g2, t) ← takeExactP Char.isDigit 2 t
  if t = [] ∨ t = ['\n'] then some (g1 ++ '_' :: g2) else Option.none

/-- Pattern `_(\d{2}[A-Z]{3})_`. -/
def matchMgrsTile (cs : List Char) : Option (List Char) := do
  let t ← lit '_' cs
  let (d2, t) ← takeExactP Char.isDigit 2 t
  let (u3, t) ← takeExactP isAZ 3 t
  let _ ← lit '_' t
  pure (d2 ++ u3)

/-- Pattern `_LSTE_(\d+)_`. -/
def matchOrbitNumber (cs : List Char) : Option (List Char) := do
  let t ← litList "_LSTE_".toList cs
  let (ds, t) ← digits1 t
  let _ ← lit '_' t
  pure ds

/-- Pattern `ECOv(\d+)_`. -/
def matchVersion (cs : List Char) : Option (List Char) := do
  let t ← litList "ECOv".toList cs
  let (ds, t) ← digits1 t
  let _ ← lit '_' t
  pure ds

/-- Pattern `ECOv\d+_(L\d[A-Z]?)_`: the optional `[A-Z]?` is taken
greedily when the following `_` still matches, else dropped. -/
def matchLevel (cs : List Char) : Option (List Char) := do
  let t ← litList "ECOv".toList cs
  let (_, t) ← digits1 t
  let t ← lit '_' t
  let t ← lit 'L' t
  let (d1, t) ← takeExactP Char.isDigit 1 t
  match t with
  | [] => Option.none
  | c :: t' =>
    if isAZ c then
      match lit '_' t' with
      | some _ => pure ('L' :: d1 ++ [c])
      | Option.none => Option.none
    else if c = '_' then pure ('L' :: d1)
    else Option.none

/-- Pattern `_LSTE_\d+_(\d{3})_`. -/
def matchScene (cs : List Char) : Option (List Char) := do
  let t ← litList "_LSTE_".toList cs
  let (_, t) ← digits1 t
  let t ← lit '_' t
  let (d3, t) ← takeExactP Char.isDigit 3 t
  let _ ← lit '_' t
  pure d3

/-- Pattern `_LSTE_(\d+_\d{3})_`. -/
def matchOrbitScene (cs : List Char) : Option (List Char) := do
  let t ← litList "_LSTE_".toList cs
  let (ds, t) ← digits1 t
  let t ← lit '_' t
  let (d3, t) ← takeExactP Char.isDigit 3 t
  let _ ← lit '_' t
  pure (ds ++ '_' :: d3)

/-- `int(...)` on a non-empty digit group. -/
def digitsToNat (cs : List Char) : Nat :=
  cs.foldl (fun n c => 10 * n + (c.toNat - 48)) 0

/-- `if match: metadata[key] = value` — insert the value of an optional
pattern extraction, or leave the dict alone when the pattern found no
match. -/
def condInsert (metadata : Dict) (k : String) (v : Option Value) : Dict :=
  match v with
  | some val => dinsert metadata k val
  | Option.none => metadata

/-- `_extract_filename_metadata` from `src/metadata.py`: the seven
independent extractions, applied in source order; an extraction that does
not match adds no key.  `scene` is stored as an `int`, everything else as
a string. -/
def extract_filename_metadata (granule_ur : String) : Dict :=
  let cs := granule_ur.toList
  let metadata : Dict := []
  let metadata := condInsert metadata "processing_ID"
    ((searchLeft matchProcessingID cs).map (fun g => .str (String.mk g)))
  let metadata := condInsert metadata "mgrs_tile"
    ((searchLeft matchMgrsTile cs).map (fun g => .str (String.mk g)))
  let metadata := condInsert metadata "orbit_number_from_filename"
    ((searchLeft matchOrbitNumber cs).map (fun g => .str (String.mk g)))
  let metadata := condInsert metadata "version_from_filename"
    ((searchLeft matchVersion cs).map (fun g => .str (String.mk g)))
  let metadata := condInsert metadata "processing_level"
    ((searchLeft matchLevel cs).map (fun g => .str (String.mk g)))
  let metadata := condInsert metadata "scene"
    ((searchLeft matchScene cs).map (fun g => .int (digitsToNat g)))
  let metadata := condInsert metadata "orbit_scene"
    ((searchLeft matchOrbitScene cs).map (fun g => .str (String.mk g)))
  metadata

-- ### `datetime.fromisoformat` and `datetime.timestamp`
-- Embedded as an executable parser for `YYYY-MM-DD[<sep>HH[:MM[:SS[.fff[fff]]]][±HH:MM[:SS]]]`
-- (the grammar `fromisoformat` accepts on the Python versions this code
-- targets; the separator character is ignored, as in CPython) plus exact
-- integer epoch arithmetic.  A naive datetime's `timestamp()` uses the
-- local UTC offset, passed in as `tz` (seconds).

/-- A parsed Python datetime: components plus an optional fixed UTC
offset in seconds. -/
structure PyDateTime where
  year : Int
  month : Nat
  day : Nat
  hour : Nat
  minute : Nat
  second : Nat
  microsecond : Nat
  offset : Option Int
deriving DecidableEq, Repr

/-- Gregorian leap year. -/
def isLeapYear (y : Int) : Bool :=
  (y % 4 = 0 && y % 100 ≠ 0) || y % 400 = 0

/-- Length of a month, as `datetime` validates it. -/
def daysInMonth (y : Int) (m : Nat) : Nat :=
  if m = 2 then (if isLeapYear y then 29 else 28)
  else if m = 4 ∨ m = 6 ∨ m = 9 ∨ m = 11 then 30
  else 31

/-- Days from the Unix epoch to year/month/day (proleptic Gregorian);
the standard civil-calendar algorithm with truncating division on
non-negative operands. -/
def days_from_civil (y : Int) (m d : Nat) : Int :=
  let y' : Int := if m ≤ 2 then y - 1 else y
  let era : Int := (if 0 ≤ y' then y' else y' - 399) / 400
  let yoe : Int := y' - era * 400
  let mp : Int := if 2 < m then (m : Int) - 3 else (m : Int) + 9
  let doy : Int := (153 * mp + 2) / 5 + (d : Int) - 1
  let doe : Int := yoe * 365 + yoe / 4 - yoe / 100 + doy
  era * 146097 + doe - 719468

/-- Parse exactly `n` decimal digits into a number. -/
def parseDigits : Nat → List Char → Option (Nat × List Char)
  | 0, cs => some (0, cs)
  | _ + 1, [] => Option.none
  | n + 1, c :: cs =>
    if c.isDigit then
      match parseDigits n cs with
      | some (v, r) => some ((c.toNat - 48) * 10 ^ n + v, r)
      | Option.none => Option.none
    else Option.none

/-- Parse the `±HH:MM[:SS]` UTC-offset tail; the whole input must be
consumed.  Returns the offset in seconds. -/
def parseOffsetTail (sign : Int) (cs : List Char) : Option Int := do
  let (oh, cs) ← parseDigits 2 cs
  let cs ← lit ':' cs
  let (om, cs) ← parseDigits 2 cs
  if om ≥ 60 then Option.none else
  match cs with
  | [] =>
    if oh * 3600 + om * 60 ≥ 86400 then Option.none
    else some (sign * (oh * 3600 + om * 60))
  | ':' :: cs => do
    let (os, cs) ← parseDigits 2 cs
    if os ≥ 60 ∨ cs ≠ [] then Option.none
    else if oh * 3600 + om * 60 + os ≥ 86400 then Option.none
    else some (sign * (oh * 3600 + om * 60 + os))
  | _ => Option.none

/-- Parse the `[.fff[fff]]` fractional-second part (3 or 6 digits) into
microseconds, then hand the rest to the offset parsing.  Returns
`(microseconds, offset)`. -/
def parseFracAndOffset (cs : List Char) : Option (Nat × Option Int) :=
  match cs with
  | [] => some (0, Option.none)
  | '+' :: t => (parseOffsetTail 1 t).map (fun o => (0, some o))
  | '-' :: t => (parseOffsetTail (-1) t).map (fun o => (0, some o))
  | '.' :: t => do
    let ds := t.takeWhile Char.isDigit
    let r := t.dropWhile Char.isDigit
    let us ← if ds.length = 3 then some (digitsToNat ds * 1000)
             else if ds.length = 6 then some (digitsToNat ds)
             else Option.none
    match r with
    | [] => some (us, Option.none)
    | '+' :: t' => (parseOffsetTail 1 t').map (fun o => (us, some o))
    | '-' :: t' => (parseOffsetTail (-1) t').map (fun o => (us, some o))
    | _ => Option.none
  | _ => Option.none

/-- Parse the time-of-day part `HH[:MM[:SS[.frac]]][offset]`. -/
def parseTimePart (cs : List Char) : Option (Nat × Nat × Nat × Nat × Option Int) := do
  let (h, cs) ← parseDigits 2 cs
  if h ≥ 24 then Option.none else
  match cs with
  | ':' :: cs => do
    let (mi, cs) ← parseDigits 2 cs
    if mi ≥ 60 then Option.none else
    match cs with
    | ':' :: cs => do
      let (se, cs) ← parseDigits 2 cs
      if se ≥ 60 then Option.none else do
      let (us, off) ← parseFracAndOffset cs
      pure (h, mi, se, us, off)
    | rest => do
      let (us, off) ← parseFracAndOffset rest
      pure (h, mi, 0, us, off)
  | rest => do
    let (us, off) ← parseFracAndOffset rest
    pure (h, 0, 0, us, off)

/-- `datetime.fromisoformat`: `YYYY-MM-DD`, optionally followed by one
separator character (ignored) and a time part. -/
def fromisoformat (s : String) : Option PyDateTime := do
  let cs := s.toList
  let (y, cs) ← parseDigits 4 cs
  let cs ← lit '-' cs
  let (mo, cs) ← parseDigits 2 cs
  let cs ← lit '-' cs
  let (d, cs) ← parseDigits 2 cs
  if y < 1 then Option.none else
  if mo < 1 ∨ 12 < mo then Option.none else
  if d < 1 ∨ daysInMonth y mo < d then Option.none else
  match cs with
  | [] => some ⟨y, mo, d, 0, 0, 0, 0, Option.none⟩
  | _sep :: rest => do
    let (h, mi, se, us, off) ← parseTimePart rest
    pure ⟨y, mo, d, h, mi, se, us, off⟩

/-- `int(dt.timestamp() * 1000)`: milliseconds since the epoch, truncated
toward zero; a naive datetime uses the local offset `tz` (seconds). -/
def pyTimestampMs (tz : Int) (dt : PyDateTime) : Int :=
  let off := dt.offset.getD tz
  let secs : Int := days_from_civil dt.year dt.month dt.day * 86400 +
    dt.hour * 3600 + dt.minute * 60 + dt.second - off
  Int.tdiv (secs * 1000000 + dt.microsecond) 1000

/-- `_convert_to_timestamp` from `src/metadata.py`: replace every `Z` by
`+00:00`, parse, convert to epoch milliseconds; any failure is caught and
`""` is returned. -/
def convert_to_timestamp (tz : Int) (datetime_str : String) : Value :=
  match fromisoformat (pyReplace datetime_str "Z" "+00:00") with
  | some dt => .int (pyTimestampMs tz dt)
  | Option.none => .str ""

-- ### The granule record (CMR `meta`/`umm` sections)
-- The extractor reads the record only through `.get` with defaults and
-- `in` tests on fixed paths, so it is embedded as nested structures whose
-- `Option` fields model key presence; an absent sub-dict (`.get(k, {})`)
-- is the structure with every field `Option.none`.  Fields that the code
-- uses as strings (`.replace`, `.lower()`, `re.search`) are `String`s;
-- fields stored verbatim are `Value`s.

/-- The `meta` section. -/
structure MetaSection where
  concept_type : Option Value := Option.none
  concept_id : Option Value := Option.none
  revision_id : Option Value := Option.none
  native_id : Option Value := Option.none
  collection_concept_id : Option Value := Option.none
  provider_id : Option Value := Option.none
  format : Option Value := Option.none
  revision_date : Option Value := Option.none

/-- `umm.CollectionReference`. -/
structure CollectionReference where
  ShortName : Option Value := Option.none
  Version : Option Value := Option.none

/-- `umm.PGEVersionClass`. -/
structure PGEVersionClass where
  PGEVersion : Option Value := Option.none

/-- `umm.TemporalExtent.RangeDateTime`. -/
structure RangeDateTime where
  BeginningDateTime : Option String := Option.none
  EndingDateTime : Option String := Option.none

/-- `umm.TemporalExtent`. -/
structure TemporalExtent where
  RangeDateTime : Option RangeDateTime := Option.none

/-- One entry of `...Geometry.BoundingRectangles`. -/
structure BoundingRectangle where
  NorthBoundingCoordinate : Option Value := Option.none
  SouthBoundingCoordinate : Option Value := Option.none
  EastBoundingCoordinate : Option Value := Option.none
  WestBoundingCoordinate : Option Value := Option.none

/-- `...HorizontalSpatialDomain.Geometry`. -/
structure SpatialGeometry where
  BoundingRectangles : Option (List BoundingRectangle) := Option.none

/-- `umm.SpatialExtent.HorizontalSpatialDomain`. -/
structure HorizontalSpatialDomain where
  Geometry : Option SpatialGeometry := Option.none

/-- `umm.SpatialExtent`. -/
structure SpatialExtent where
  HorizontalSpatialDomain : Option HorizontalSpatialDomain := Option.none

/-- One entry of `umm.ProviderDates`. -/
structure ProviderDate where
  Type' : Option String := Option.none
  Date : Option Value := Option.none

/-- `umm.DataGranule`. -/
structure DataGranule where
  DayNightFlag : Option Value := Option.none
  ProductionDateTime : Option Value := Option.none

/-- One entry of a platform's `Instruments`. -/
structure Instrument where
  ShortName : Option Value := Option.none

/-- One entry of `umm.Platforms`. -/
structure Platform where
  ShortName : Option Value := Option.none
  Instruments : Option (List Instrument) := Option.none

/-- One entry of `umm.OrbitCalculatedSpatialDomains`. -/
structure OrbitCalculatedSpatialDomain where
  BeginOrbitNumber : Option Value := Option.none
  EndOrbitNumber : Option Value := Option.none

/-- One entry of `umm.OrbitParameters`. -/
structure OrbitParameter where
  OrbitNumber : Option Value := Option.none

/-- One entry of `umm.MeasuredParameters`. -/
structure MeasuredParameter where
  ParameterName : Option String := Option.none

/-- One entry of `umm.AdditionalAttributes`. -/
structure AdditionalAttribute where
  Name : Option String := Option.none
  Values : Option (List String) := Option.none

/-- The `umm` section. -/
structure Umm where
  GranuleUR : Option String := Option.none
  CollectionReference : Option CollectionReference := Option.none
  PGEVersionClass : Option PGEVersionClass := Option.none
  TemporalExtent : Option TemporalExtent := Option.none
  SpatialExtent : Option SpatialExtent := Option.none
  ProviderDates : Option (List ProviderDate) := Option.none
  DataGranule : Option DataGranule := Option.none
  Platforms : Option (List Platform) := Option.none
  OrbitCalculatedSpatialDomains : Option (List OrbitCalculatedSpatialDomain) := Option.none
  OrbitParameters : Option (List OrbitParameter) := Option.none
  MeasuredParameters : Option (List MeasuredParameter) := Option.none
  AdditionalAttributes : Option (List AdditionalAttribute) := Option.none

/-- A granule as the extractor consumes it: the two sections plus the
`granule.size()` accessor's result. -/
structure Granule where
  meta : MetaSection := {}
  umm : Umm := {}
  size : Value := .none

-- ### Granule record extractor (`metadata.py` helpers)

/-- `_extract_spatial_metadata`: first bounding rectangle if the key is
present (`[0]` on a present-but-empty list raises `IndexError`, hence
`Option.none`), else all four bounds default to `""`. -/
def extract_spatial_metadata (umm : Umm) : Option Dict :=
  let geo := (((umm.SpatialExtent.getD {}).HorizontalSpatialDomain.getD {}).Geometry.getD {})
  match geo.BoundingRectangles with
  | Option.none =>
    some [("north_lat", .str ""), ("south_lat", .str ""),
          ("east_lon", .str ""), ("west_lon", .str "")]
  | some rects =>
    match rects.head? with
    | Option.none => Option.none
    | some br =>
      some [("north_lat", pyGet br.NorthBoundingCoordinate),
            ("south_lat", pyGet br.SouthBoundingCoordinate),
            ("east_lon", pyGet br.EastBoundingCoordinate),
            ("west_lon", pyGet br.WestBoundingCoordinate)]

/-- One iteration of the `_extract_provider_dates` loop. -/
def provider_date_step (metadata : Dict) (pdate : ProviderDate) : Dict :=
  let date_type := pdate.Type'.getD ""
  if date_type ≠ "" then
    dinsert metadata ("provider_date_" ++ pyToLower date_type) (pyGet pdate.Date)
  else metadata

/-- `_extract_provider_dates`: one `provider_date_<type lowercased>` key
per entry with a non-empty `Type`. -/
def extract_provider_dates (umm : Umm) : Dict :=
  (umm.ProviderDates.getD []).foldl provider_date_step []

/-- `_extract_platform_metadata`: first platform's short name (default
`"ISS"` when the platform entry lacks it) and first instrument's short
name (default `"ECOSTRESS"`); both `""` when no platforms exist. -/
def extract_platform_metadata (umm : Umm) : Dict :=
  let metadata : Dict := [("platform_short_name", .str ""), ("sensor", .str "")]
  match (umm.Platforms.getD []).head? with
  | Option.none => metadata
  | some p =>
    let metadata := dinsert metadata "platform_short_name" (p.ShortName.getD (.str "ISS"))
    match (p.Instruments.getD []).head? with
    | Option.none => metadata
    | some inst => dinsert metadata "sensor" (inst.ShortName.getD (.str "ECOSTRESS"))

/-- `_extract_orbit_metadata`: the two-tier fallback.  The first tier
fires when the calculated-domains key is present, the list is non-empty
and its first element has `BeginOrbitNumber`; the second tier fires when
`OrbitParameters` is present and the current `orbit_number` value is
falsy (`not metadata['orbit_number']`). -/
def orbit_tier1 (umm : Umm) : Dict :=
  let metadata : Dict :=
    [("orbit_number", .str ""), ("begin_orbit_number", .str ""), ("end_orbit_number", .str "")]
  match umm.OrbitCalculatedSpatialDomains with
  | Option.none => metadata
  | some orbits =>
    match orbits.head? with
    | Option.none => metadata
    | some o =>
      match o.BeginOrbitNumber with
      | Option.none => metadata
      | some b =>
        let metadata := dinsert metadata "begin_orbit_number" b
        let metadata := dinsert metadata "end_orbit_number" (pyGet o.EndOrbitNumber)
        dinsert metadata "orbit_number" b

def orbit_tier2 (umm : Umm) (metadata : Dict) : Dict :=
  match umm.OrbitParameters with
  | Option.none => metadata
  | some orbits =>
    if !((dget metadata "orbit_number").getD .none).truthy then
      match orbits.head? with
      | Option.none => metadata
      | some o =>
        match o.OrbitNumber with
        | Option.none => metadata
        | some n => dinsert metadata "orbit_number" n
    else metadata

def extract_orbit_metadata (umm : Umm) : Dict :=
  orbit_tier2 umm (orbit_tier1 umm)

/-- `_extract_parameter_names`: comma-join of all present parameter
names, `""` when the list is absent or empty. -/
def extract_parameter_names (umm : Umm) : String :=
  let measured_params := umm.MeasuredParameters.getD []
  if !measured_params.isEmpty then
    String.intercalate ", " (measured_params.filterMap (·.ParameterName))
  else ""

/-- `_extract_additional_attributes`: one `attr_<lowercased,
hyphens-to-underscores name>` key per attribute with a non-empty name and
a present, non-empty value list. -/
def additional_attribute_step (metadata : Dict) (attr : AdditionalAttribute) : Dict :=
  let attr_name := attr.Name.getD ""
  match attr.Values with
  | Option.none => metadata
  | some vs =>
    if attr_name ≠ "" ∧ vs ≠ [] then
      let safe_name := pyReplace (pyToLower attr_name) "-" "_"
      dinsert metadata ("attr_" ++ safe_name) (.str (String.intercalate ", " vs))
    else metadata

def extract_additional_attributes (umm : Umm) : Dict :=
  (umm.AdditionalAttributes.getD []).foldl additional_attribute_step []

/-- `extract_granule_metadata` from `src/metadata.py`, statement by
statement.  The result is `Option.none` exactly when the spatial helper
raises (`BoundingRectangles` present but empty). -/
def extract_granule_metadata (tz : Int) (granule : Granule) : Option Dict :=
  let meta := granule.meta
  let umm := granule.umm
  let metadata : Dict := []
  let metadata := dinsert metadata "concept_type" (pyGet meta.concept_type)
  let metadata := dinsert metadata "concept_id" (pyGet meta.concept_id)
  let metadata := dinsert metadata "revision_id" (pyGet meta.revision_id)
  let metadata := dinsert metadata "native_id" (pyGet meta.native_id)
  let metadata := dinsert metadata "collection_concept_id" (pyGet meta.collection_concept_id)
  let metadata := dinsert metadata "provider_id" (pyGet meta.provider_id)
  let metadata := dinsert metadata "format" (pyGet meta.format)
  let metadata := dinsert metadata "revision_date" (pyGet meta.revision_date)
  let granule_ur := umm.GranuleUR.getD ""
  let metadata := dinsert metadata "granule_ur" (.str granule_ur)
  let metadata := dinsert metadata "processing_ID" (.str "")
  let metadata := dinsert metadata "mgrs_tile" (.str "")
  let metadata := dinsert metadata "orbit_number_from_filename" (.str "")
  let metadata := dinsert metadata "version_from_filename" (.str "")
  let metadata := dinsert metadata "processing_level" (.str "")
  let metadata :=
    if granule_ur ≠ "" then dupdate metadata (extract_filename_metadata granule_ur)
    else metadata
  let collection_ref := umm.CollectionReference.getD {}
  let metadata := dinsert metadata "short_name" (pyGet collection_ref.ShortName)
  let metadata := dinsert metadata "version" (pyGet collection_ref.Version)
  let pge_version := umm.PGEVersionClass.getD {}
  let metadata := dinsert metadata "pge_version" (pyGet pge_version.PGEVersion)
  let temporal_extent := ((umm.TemporalExtent.getD {}).RangeDateTime.getD {})
  let beginning_datetime := temporal_extent.BeginningDateTime.getD ""
  let metadata := dinsert metadata "beginning_date_time" (.str beginning_datetime)
  let metadata := dinsert metadata "ending_date_time"
    (.str (temporal_extent.EndingDateTime.getD ""))
  let metadata :=
    if beginning_datetime ≠ "" then
      dinsert metadata "time_start" (convert_to_timestamp tz beginning_datetime)
    else metadata
  match extract_spatial_metadata umm with
  | Option.none => Option.none
  | some spatial =>
    let metadata := dupdate metadata spatial
    let metadata := dupdate metadata (extract_provider_dates umm)
    let data_granule := umm.DataGranule.getD {}
    let metadata := dinsert metadata "day_night_flag" (pyGet data_granule.DayNightFlag)
    let metadata := dinsert metadata "production_date_time" (pyGet data_granule.ProductionDateTime)
    let metadata := dupdate metadata (extract_platform_metadata umm)
    let metadata := dinsert metadata "size_mb" granule.size
    let metadata := dupdate metadata (extract_orbit_metadata umm)
    let metadata := dinsert metadata "parameter_names" (.str (extract_parameter_names umm))
    let metadata := dupdate metadata (extract_additional_attributes umm)
    some metadata

-- ### Metadata table reconciler (`src/csv_handler.py`)
-- CSV rows are dicts like the metadata (`Row := Dict`).  File-system
-- effects are explicit inputs: whether the table file exists, whether
-- reading it raises, the parsed row list, the contents of the download
-- folders, and whether the final write completes.  Python exceptions that
-- `enhance_metadata_csv`'s `try` block catches are `Except.error ()`.

/-- One entry of the `downloaded_files` list:
`(filename, folder_path, file_type, granule_metadata)`. -/
structure DownloadedFile where
  filename : String
  folder_path : String
  file_type : String
  granule_metadata : Dict

/-- One entry of the `download_folders` dict, together with what the file
system says about it (`os.path.exists`, `os.listdir`). -/
structure Folder where
  folder_type : String
  path_exists : Bool
  listing : List String

/-- What the table file holds after the call: untouched, fully written
with these rows, or left in an unspecified state by a failed write. -/
inductive FileOutcome where
  | untouched
  | written (rows : List Dict)
  | write_failed
deriving DecidableEq, Repr

/-- The `field_list` of `_initialize_metadata_fields`, verbatim. -/
def field_list : List String :=
  ["system:time_start", "system:time_end", "EPSG", "band_type",
   "attr_identifier_product_doi", "attr_identifier_product_doi_authority",
   "begin_orbit_number", "beginning_date_time", "collection_concept_id",
   "concept_id", "concept_type", "day_night_flag", "east_lon",
   "end_orbit_number", "ending_date_time", "format", "granule_ur",
   "mgrs_tile", "native_id", "north_lat", "orbit_number",
   "orbit_number_from_filename", "parameter_names", "pge_version",
   "platform_short_name", "processing_ID", "processing_level",
   "production_date_time", "provider_date_insert", "provider_date_update",
   "provider_id", "revision_date", "revision_id", "sensor", "short_name",
   "size_mb", "south_lat", "time_start", "version", "version_from_filename",
   "west_lon", "scene", "orbit_scene"]

/-- `_initialize_metadata_fields`: set every vocabulary field of every
row to `''`. -/
def initialize_metadata_fields (rows : List Dict) : List Dict :=
  rows.map (fun row => field_list.foldl (fun r field => dinsert r field (.str "")) row)

/-- `'time_start' in granule_metadata and granule_metadata['time_start']`
style guard. -/
def truthyKey (m : Dict) (k : String) : Bool :=
  match dget m k with
  | some v => v.truthy
  | Option.none => false

/-- The `try`-guarded datetime block of `_update_row_with_metadata`
(lines 116–130): parse the beginning date; on success set
`system:time_start`, then set `system:time_end` from the ending date when
that is a truthy string (a failure after `system:time_start` was assigned
leaves it assigned), or copy `system:time_start` otherwise.  Any parse
`TypeError`/`ValueError` is caught, leaving the row as it stands. -/
def datetimeBlock (tz : Int) (row : Dict) (b : String) (ending : Option Value) : Dict :=
  match fromisoformat (pyReplace b "Z" "+00:00") with
  | Option.none => row
  | some begin_date =>
    let ts : Value := .int (pyTimestampMs tz begin_date)
    let row := dinsert row "system:time_start" ts
    match ending with
    | some (.str e) =>
      if e ≠ "" then
        match fromisoformat (pyReplace e "Z" "+00:00") with
        | some end_date => dinsert row "system:time_end" (.int (pyTimestampMs tz end_date))
        | Option.none => row
      else dinsert row "system:time_end" ts
    | some v => if v.truthy then row else dinsert row "system:time_end" ts
    | Option.none => dinsert row "system:time_end" ts

/-- The final loop of `_update_row_with_metadata`:
`for key, value in granule_metadata.items(): if value is not None and key
in row: row[key] = value`. -/
def transfer_fields (row granule_metadata : Dict) : Dict :=
  granule_metadata.foldl
    (fun r kv => if kv.2.isNotNone && containsKey r kv.1 then dinsert r kv.1 kv.2 else r)
    row

/-- `_update_row_with_metadata`: system time fields, unconditional
`band_type`, EPSG from a truthy `mgrs_tile` (a truthy non-string raises
`TypeError` inside `get_epsg_from_mgrs`, uncaught), then the generic
merge `for key, value in granule_metadata.items(): if value is not None
and key in row: row[key] = value`. -/
def update_row_with_metadata (tz : Int) (row : Dict) (granule_metadata : Dict)
    (file_type : String) : Except Unit Dict :=
  let row :=
    if truthyKey granule_metadata "time_start" then
      let v := (dget granule_metadata "time_start").getD (.str "")
      let row := dinsert row "system:time_start" v
      dinsert row "system:time_end" ((dget granule_metadata "time_start").getD (.str ""))
    else
      match dget granule_metadata "beginning_date_time" with
      | some (.str b) => if b ≠ "" then datetimeBlock tz row b (dget granule_metadata "ending_date_time") else row
      | _ => row
  let row := dinsert row "band_type" (.str file_type)
  let epsgStep : Except Unit Dict :=
    match dget granule_metadata "mgrs_tile" with
    | some (.str s) =>
      if s ≠ "" then
        let epsg := get_epsg_from_mgrs s
        .ok (if epsg ≠ "" then dinsert row "EPSG" (.str epsg) else row)
      else .ok row
    | some v => if v.truthy then .error () else .ok row
    | Option.none => .ok row
  match epsgStep with
  | .error e => .error e
  | .ok row => .ok (transfer_fields row granule_metadata)

/-- The `row['id_no'] in filename` guard of
`_populate_from_downloaded_files`: `KeyError` when the row has no
`id_no`, `TypeError` when its value is not a string. -/
def rowMatches (row : Dict) (filename : String) : Except Unit Bool :=
  match dget row "id_no" with
  | some (.str s) => .ok (isSubstr s filename)
  | some _ => .error ()
  | Option.none => .error ()

/-- Effectful map over the row list (the inner `for row in rows` loop). -/
def mapRows (f : Dict → Except Unit Dict) : List Dict → Except Unit (List Dict)
  | [] => .ok []
  | r :: t =>
    match f r with
    | .error e => .error e
    | .ok r' =>
      match mapRows f t with
      | .error e => .error e
      | .ok t' => .ok (r' :: t')

/-- `_populate_from_downloaded_files`: for each record, update every row
whose `id_no` occurs in the record's filename. -/
def populate_from_downloaded_files (tz : Int) (rows : List Dict)
    (downloaded_files : List DownloadedFile) : Except Unit (List Dict) :=
  downloaded_files.foldlM
    (fun rows df =>
      mapRows
        (fun row => do
          let m ← rowMatches row df.filename
          if m then update_row_with_metadata tz row df.granule_metadata df.file_type
          else pure row)
        rows)
    rows

/-- The per-file row update of `_populate_from_folders`: set `band_type`
from the folder type and, when the filename carries an MGRS tile pattern,
`mgrs_tile` and (for a non-empty codec result) `EPSG`. -/
def folderRowUpdate (folder_type filename : String) (row : Dict) : Except Unit Dict := do
  let m ← rowMatches row filename
  if m then
    let row := dinsert row "band_type" (.str (pyReplace folder_type ".tif" ""))
    match searchLeft matchMgrsTile filename.toList with
    | some g =>
      let mgrs_tile := String.mk g
      let row := dinsert row "mgrs_tile" (.str mgrs_tile)
      let epsg := get_epsg_from_mgrs mgrs_tile
      pure (if epsg ≠ "" then dinsert row "EPSG" (.str epsg) else row)
    | Option.none => pure row
  else pure row

/-- `_populate_from_folders`: scan each existing folder's `.tif` files. -/
def populate_from_folders (rows : List Dict) (download_folders : List Folder) :
    Except Unit (List Dict) :=
  download_folders.foldlM
    (fun rows folder =>
      if folder.path_exists then
        folder.listing.foldlM
          (fun rows filename =>
            if pyEndsWith filename ".tif" then
              mapRows (folderRowUpdate folder.folder_type filename) rows
            else pure rows)
          rows
      else pure rows)
    rows

/-- The body of `enhance_metadata_csv`'s `try` block after the read:
initialize the vocabulary fields, then populate from download records
when the list is non-empty (`if downloaded_files:`), else from the
folders. -/
def reconcile_rows (tz : Int) (contents : List Dict) (download_folders : List Folder)
    (downloaded_files : List DownloadedFile) : Except Unit (List Dict) :=
  let rows := initialize_metadata_fields contents
  if !downloaded_files.isEmpty then populate_from_downloaded_files tz rows downloaded_files
  else populate_from_folders rows download_folders

/-- `enhance_metadata_csv`: missing file reports failure without touching
anything; a raise during read or populate is caught, reporting failure
with the file unwritten; writing an empty row set truncates the file and
then raises on `rows[0]` (file rewritten as empty); a simulated write
error reports failure with the file state unspecified; otherwise success.
Returns Python's `bool` plus the resulting file state. -/
def enhance_metadata_csv (tz : Int) (file_exists load_ok write_ok : Bool)
    (contents : List Dict) (download_folders : List Folder)
    (downloaded_files : List DownloadedFile) : Bool × FileOutcome :=
  if !file_exists then (false, .untouched)
  else if !load_ok then (false, .untouched)
  else
    match reconcile_rows tz contents download_folders downloaded_files with
    | .error _ => (false, .untouched)
    | .ok rows =>
      match rows with
      | [] => (false, .written [])
      | _ :: _ => if write_ok then (true, .written rows) else (false, .write_failed)

/-- Every key the extractor writes outside the dynamically named
provider-date and attribute families. -/
def fixedExtractKeys : List String :=
  ["concept_type", "concept_id", "revision_id", "native_id",
   "collection_concept_id", "provider_id", "format", "revision_date",
   "granule_ur", "processing_ID", "mgrs_tile", "orbit_number_from_filename",
   "version_from_filename", "processing_level", "scene", "orbit_scene",
   "short_name", "version", "pge_version", "beginning_date_time",
   "ending_date_time", "time_start", "north_lat", "south_lat", "east_lon",
   "west_lon", "day_night_flag", "production_date_time",
   "platform_short_name", "sensor", "size_mb", "orbit_number",
   "begin_orbit_number", "end_orbit_number", "parameter_names"]

-- ### Row-list preservation (no row created, deleted or re-keyed)

/-- Two row lists of equal length whose rows carry the same `id_no`
position by position. -/
def RowsRel (l l' : List Dict) : Prop :=
  l'.length = l.length ∧
  ∀ i : Nat, (l'.get? i).map (fun r => dget r "id_no") =
    (l.get? i).map (fun r => dget r "id_no")

-- ### Claim C5: filename parser on the reference identifier

/-- The same seven source extractions applied in the reverse order (used
only to express the claim's order-independence: the extractions write
seven pairwise distinct keys, so the resulting mapping does not depend on
the order in which they run). -/
def extract_filename_metadata_reordered (granule_ur : String) : Dict :=
  let cs := granule_ur.toList
  let metadata : Dict := []
  let metadata := condInsert metadata "orbit_scene"
    ((searchLeft matchOrbitScene cs).map (fun g => .str (String.mk g)))
  let metadata := condInsert metadata "scene"
    ((searchLeft matchScene cs).map (fun g => .int (digitsToNat g)))
  let metadata := condInsert metadata "processing_level"
    ((searchLeft matchLevel cs).map (fun g => .str (String.mk g)))
  let metadata := condInsert metadata "version_from_filename"
    ((searchLeft matchVersion cs).map (fun g => .str (String.mk g)))
  let metadata := condInsert metadata "orbit_number_from_filename"
    ((searchLeft matchOrbitNumber cs).map (fun g => .str (String.mk g)))
  let metadata := condInsert metadata "mgrs_tile"
    ((searchLeft matchMgrsTile cs).map (fun g => .str (String.mk g)))
  let metadata := condInsert metadata "processing_ID"
    ((searchLeft matchProcessingID cs).map (fun g => .str (String.mk g)))
  metadata

-- ### Claim C4: orbit fallback priority

/-- A granule record in which both orbit sources are present and carry
the orbit keys, but the calculated-domains `BeginOrbitNumber` is the
falsy value `0`. -/
def ummOrbitFalsy : Umm :=
  { OrbitCalculatedSpatialDomains :=
      some [{ BeginOrbitNumber := some (.int 0), EndOrbitNumber := some (.int 0) }],
    OrbitParameters := some [{ OrbitNumber := some (.int 5) }] }

-- ### Claim C6: defaults of unmatched filename patterns

/-- A granule whose (non-empty) granule UR matches none of the seven
filename patterns. -/
def granuleBareUR : Granule := { umm := { GranuleUR := some "A" } }

-- ### Claim C7: timestamp conversion

/-- A granule whose `BeginningDateTime` does not parse, and whose other
sections still carry data. -/
def granuleBadDate : Granule :=
  { meta := { concept_id := some (.str "G-1") },
    umm := { TemporalExtent := some { RangeDateTime := some { BeginningDateTime := some "not-a-date" } },
             DataGranule := some { DayNightFlag := some (.str "Day") } } }

-- ### Claim C1: reconciler round-trip

/-- The single table row after the C1 round-trip: `id_no` kept, every
vocabulary column initialised to `""`, and `band_type` merged to
`"LST"`. -/
def rowFinalC1 : Dict :=
  [("id_no", .str "ABC"), ("system:time_start", .str ""), ("system:time_end", .str ""),
   ("EPSG", .str ""), ("band_type", .str "LST"),
   ("attr_identifier_product_doi", .str ""), ("attr_identifier_product_doi_authority", .str ""),
   ("begin_orbit_number", .str ""), ("beginning_date_time", .str ""),
   ("collection_concept_id", .str ""), ("concept_id", .str ""), ("concept_type", .str ""),
   ("day_night_flag", .str ""), ("east_lon", .str ""), ("end_orbit_number", .str ""),
   ("ending_date_time", .str ""), ("format", .str ""), ("granule_ur", .str ""),
   ("mgrs_tile", .str ""), ("native_id", .str ""), ("north_lat", .str ""),
   ("orbit_number", .str ""), ("orbit_number_from_filename", .str ""),
   ("parameter_names", .str ""), ("pge_version", .str ""), ("platform_short_name", .str ""),
   ("processing_ID", .str ""), ("processing_level", .str ""),
   ("production_date_time", .str ""), ("provider_date_insert", .str ""),
   ("provider_date_update", .str ""), ("provider_id", .str ""), ("revision_date", .str ""),
   ("revision_id", .str ""), ("sensor", .str ""), ("short_name", .str ""),
   ("size_mb", .str ""), ("south_lat", .str ""), ("time_start", .str ""),
   ("version", .str ""), ("version_from_filename", .str ""), ("west_lon", .str ""),
   ("scene", .str ""), ("orbit_scene", .str "")]

-- ## Theorems

-- ### Basic dict lemmas

theorem dget_dinsert (m : Dict) (k k' : String) (v : Value) :
    dget (dinsert m k v) k' = if k = k' then some v else dget m k' := by
  induction m with
  | nil => simp [dinsert, dget]
  | cons h t ih =>
    obtain ⟨hk, hv⟩ := h
    by_cases h1 : hk = k
    · subst h1
      by_cases h2 : hk = k' <;> simp [dinsert, dget, h2]
    · by_cases h2 : hk = k'
      · subst h2
        have : ¬ k = hk := fun h => h1 h.symm
        simp [dinsert, dget, h1, this]
      · simp [dinsert, dget, h1, h2, ih]

theorem dget_dinsert_self (m : Dict) (k : String) (v : Value) :
    dget (dinsert m k v) k = some v := by
  simp [dget_dinsert]

theorem dget_dinsert_ne (m : Dict) (k k' : String) (v : Value) (h : k ≠ k') :
    dget (dinsert m k v) k' = dget m k' := by
  simp [dget_dinsert, h]

theorem containsKey_dinsert (m : Dict) (k k' : String) (v : Value) :
    containsKey (dinsert m k v) k' = (containsKey m k' || k = k') := by
  by_cases h : k = k' <;> simp [containsKey, dget_dinsert, h]

/-- If an association list has no binding at all for `k` (first-match
lookup finds nothing), then `update` with it leaves `k` unchanged. -/
theorem dget_dupdate_of_not_mem (m d : Dict) (k : String)
    (h : dget d k = Option.none) : dget (dupdate m d) k = dget m k := by
  induction d generalizing m with
  | nil => simp [dupdate]
  | cons hd t ih =>
    obtain ⟨hk, hv⟩ := hd
    by_cases h1 : hk = k
    · simp [dget, h1] at h
    · have ht : dget t k = Option.none := by simpa [dget, h1] using h
      have : dupdate m ((hk, hv) :: t) = dupdate (dinsert m hk hv) t := rfl
      rw [this, ih _ ht, dget_dinsert_ne _ _ _ _ h1]

example :
    extract_filename_metadata "ECOv002_L2T_LSTE_00048_003_18TUN_20250101T120000_0712_01" =
      [("processing_ID", .str "0712_01"), ("mgrs_tile", .str "18TUN"),
       ("orbit_number_from_filename", .str "00048"), ("version_from_filename", .str "002"),
       ("processing_level", .str "L2T"), ("scene", .int 3),
       ("orbit_scene", .str "00048_003")] := by
  rfl

example : get_epsg_from_mgrs "18TUN" = "EPSG32618" := by rfl

example : get_epsg_from_mgrs "47MDU" = "EPSG32747" := by rfl

example : get_epsg_from_mgrs "" = "" := by rfl

example : get_epsg_from_mgrs "1T" = "" := by rfl

example :
    fromisoformat "2025-01-01T12:00:00+00:00" =
      some ⟨2025, 1, 1, 12, 0, 0, 0, some 0⟩ := by rfl

example : fromisoformat "not-a-date" = Option.none := by rfl

example : pyTimestampMs 0 ⟨2025, 1, 1, 12, 0, 0, 0, some 0⟩ = 1735732800000 := by rfl

-- ### Key-tracking lemmas for the extractor

theorem dget_condInsert_ne (m : Dict) (k k' : String) (v : Option Value) (h : k ≠ k') :
    dget (condInsert m k v) k' = dget m k' := by
  cases v with
  | none => rfl
  | some val => exact dget_dinsert_ne _ _ _ _ h

theorem dget_condInsert_self (m : Dict) (k : String) (v : Option Value)
    (h : dget m k = Option.none) : dget (condInsert m k v) k = v := by
  cases v with
  | none => exact h
  | some val => exact dget_dinsert_self _ _ _

theorem string_data_append (s t : String) : (s ++ t).data = s.data ++ t.data := by
  cases s; cases t; rfl

/-- A key built by prepending a fixed prefix differs from any string that
does not start with that prefix. -/
theorem append_key_ne (p x t : String) (h : t.data.take p.data.length ≠ p.data) :
    p ++ x ≠ t := by
  intro he
  apply h
  rw [← he, string_data_append, List.take_left]

theorem mem_dinsert (m : Dict) (k : String) (v : Value) (p : String × Value)
    (hp : p ∈ dinsert m k v) : p = (k, v) ∨ p ∈ m := by
  induction m with
  | nil =>
    simp [dinsert] at hp
    exact Or.inl hp
  | cons hd t ih =>
    obtain ⟨hk, hv⟩ := hd
    by_cases h1 : hk = k
    · subst h1
      simp only [dinsert, if_pos rfl] at hp
      rcases List.mem_cons.mp hp with h2 | h2
      · exact Or.inl h2
      · exact Or.inr (List.mem_cons_of_mem _ h2)
    · simp only [dinsert, if_neg h1] at hp
      rcases List.mem_cons.mp hp with h2 | h2
      · exact Or.inr (by simp [h2])
      · rcases ih h2 with h3 | h3
        · exact Or.inl h3
        · exact Or.inr (List.mem_cons_of_mem _ h3)

/-- If no binding of `d` has key `k`, `update`-ing `d` into `m` leaves
`k` unchanged. -/
theorem dget_dupdate_of_keys (m d : Dict) (k : String) (h : ∀ p ∈ d, p.1 ≠ k) :
    dget (dupdate m d) k = dget m k := by
  induction d generalizing m with
  | nil => rfl
  | cons hd t ih =>
    have hstep : dupdate m (hd :: t) = dupdate (dinsert m hd.1 hd.2) t := rfl
    rw [hstep, ih _ (fun p hp => h p (List.mem_cons_of_mem _ hp)),
        dget_dinsert_ne _ _ _ _ (h hd (List.mem_cons_self _ _))]

/-- Keys produced by one provider-dates iteration start with
`provider_date_` (given that the accumulator's do). -/
theorem provider_step_keys (acc : Dict) (pd : ProviderDate)
    (hacc : ∀ p ∈ acc, p.1.data.take 14 = "provider_date_".data) :
    ∀ q ∈ provider_date_step acc pd, q.1.data.take 14 = "provider_date_".data := by
  unfold provider_date_step
  dsimp only
  split
  · intro q hq
    rcases mem_dinsert _ _ _ _ hq with h2 | h2
    · rw [h2]
      show (("provider_date_" ++ pyToLower (pd.Type'.getD "")).data).take 14 =
        "provider_date_".data
      rw [string_data_append,
        show (14 : Nat) = "provider_date_".data.length from rfl, List.take_left]
    · exact hacc q h2
  · exact hacc

/-- Every key the provider-dates loop produces starts with
`provider_date_`. -/
theorem provider_fold_keys (l : List ProviderDate) (acc : Dict)
    (hacc : ∀ p ∈ acc, p.1.data.take 14 = "provider_date_".data) :
    ∀ p ∈ l.foldl provider_date_step acc, p.1.data.take 14 = "provider_date_".data := by
  induction l generalizing acc with
  | nil => exact hacc
  | cons pd t ih =>
    intro p hp
    rw [List.foldl_cons] at hp
    exact ih _ (provider_step_keys acc pd hacc) p hp

/-- Keys produced by one additional-attributes iteration start with
`attr_` (given that the accumulator's do). -/
theorem attr_step_keys (acc : Dict) (attr : AdditionalAttribute)
    (hacc : ∀ p ∈ acc, p.1.data.take 5 = "attr_".data) :
    ∀ q ∈ additional_attribute_step acc attr, q.1.data.take 5 = "attr_".data := by
  unfold additional_attribute_step
  dsimp only
  split
  · exact hacc
  · split
    · intro q hq
      rcases mem_dinsert _ _ _ _ hq with h2 | h2
      · rw [h2]
        show (("attr_" ++ pyReplace (pyToLower (attr.Name.getD "")) "-" "_").data).take 5 =
          "attr_".data
        rw [string_data_append,
          show (5 : Nat) = "attr_".data.length from rfl, List.take_left]
      · exact hacc q h2
    · exact hacc

/-- Every key the additional-attributes loop produces starts with
`attr_`. -/
theorem attr_fold_keys (l : List AdditionalAttribute) (acc : Dict)
    (hacc : ∀ p ∈ acc, p.1.data.take 5 = "attr_".data) :
    ∀ p ∈ l.foldl additional_attribute_step acc, p.1.data.take 5 = "attr_".data := by
  induction l generalizing acc with
  | nil => exact hacc
  | cons attr t ih =>
    intro p hp
    rw [List.foldl_cons] at hp
    exact ih _ (attr_step_keys acc attr hacc) p hp

theorem dget_dupdate_provider (m : Dict) (umm : Umm) (k : String)
    (h : k.data.take 14 ≠ "provider_date_".data) :
    dget (dupdate m (extract_provider_dates umm)) k = dget m k :=
  dget_dupdate_of_keys _ _ _ (fun p hp he =>
    h (he ▸ provider_fold_keys _ _ (by simp) p hp))

theorem dget_dupdate_attrs (m : Dict) (umm : Umm) (k : String)
    (h : k.data.take 5 ≠ "attr_".data) :
    dget (dupdate m (extract_additional_attributes umm)) k = dget m k :=
  dget_dupdate_of_keys _ _ _ (fun p hp he =>
    h (he ▸ attr_fold_keys _ _ (by simp) p hp))

theorem platform_keys (umm : Umm) :
    ∀ p ∈ extract_platform_metadata umm, p.1 = "platform_short_name" ∨ p.1 = "sensor" := by
  unfold extract_platform_metadata
  repeat' split
  all_goals intro p hp
  all_goals simp [dinsert] at hp
  all_goals rcases hp with h | h <;> simp [h]

theorem dget_dupdate_platform (m : Dict) (umm : Umm) (k : String)
    (h1 : k ≠ "platform_short_name") (h2 : k ≠ "sensor") :
    dget (dupdate m (extract_platform_metadata umm)) k = dget m k :=
  dget_dupdate_of_keys _ _ _ (fun p hp => by
    rcases platform_keys umm p hp with h | h <;> rw [h]
    · exact fun he => h1 he.symm
    · exact fun he => h2 he.symm)

theorem orbit_tier1_keys (umm : Umm) :
    ∀ p ∈ orbit_tier1 umm,
      p.1 = "orbit_number" ∨ p.1 = "begin_orbit_number" ∨ p.1 = "end_orbit_number" := by
  unfold orbit_tier1
  repeat' split
  all_goals intro p hp
  all_goals simp [dinsert] at hp
  all_goals rcases hp with h | h | h <;> simp [h]

theorem orbit_keys (umm : Umm) :
    ∀ p ∈ extract_orbit_metadata umm,
      p.1 = "orbit_number" ∨ p.1 = "begin_orbit_number" ∨ p.1 = "end_orbit_number" := by
  unfold extract_orbit_metadata orbit_tier2
  repeat' split
  all_goals intro p hp
  all_goals try exact orbit_tier1_keys umm p hp
  all_goals rcases mem_dinsert _ _ _ _ hp with h | h
  · simp [h]
  · exact orbit_tier1_keys umm p h

theorem dget_dupdate_orbit (m : Dict) (umm : Umm) (k : String)
    (h1 : k ≠ "orbit_number") (h2 : k ≠ "begin_orbit_number")
    (h3 : k ≠ "end_orbit_number") :
    dget (dupdate m (extract_orbit_metadata umm)) k = dget m k :=
  dget_dupdate_of_keys _ _ _ (fun p hp => by
    rcases orbit_keys umm p hp with h | h | h <;> rw [h]
    · exact fun he => h1 he.symm
    · exact fun he => h2 he.symm
    · exact fun he => h3 he.symm)

theorem spatial_keys (umm : Umm) (sp : Dict) (h : extract_spatial_metadata umm = some sp) :
    ∀ p ∈ sp,
      p.1 = "north_lat" ∨ p.1 = "south_lat" ∨ p.1 = "east_lon" ∨ p.1 = "west_lon" := by
  unfold extract_spatial_metadata at h
  dsimp only at h
  split at h
  · cases h
    intro p hp
    simp at hp
    rcases hp with h | h | h | h <;> simp [h]
  · split at h
    · cases h
    · cases h
      intro p hp
      simp at hp
      rcases hp with h | h | h | h <;> simp [h]

theorem dget_dupdate_spatial (m : Dict) (umm : Umm) (sp : Dict) (k : String)
    (hsp : extract_spatial_metadata umm = some sp)
    (h1 : k ≠ "north_lat") (h2 : k ≠ "south_lat") (h3 : k ≠ "east_lon")
    (h4 : k ≠ "west_lon") :
    dget (dupdate m sp) k = dget m k :=
  dget_dupdate_of_keys _ _ _ (fun p hp => by
    rcases spatial_keys umm sp hsp p hp with h | h | h | h <;> rw [h]
    · exact fun he => h1 he.symm
    · exact fun he => h2 he.symm
    · exact fun he => h3 he.symm
    · exact fun he => h4 he.symm)

-- Per-key lookup lemmas for the filename parser.

theorem dget_efm_processing_ID (u : String) :
    dget (extract_filename_metadata u) "processing_ID" =
      (searchLeft matchProcessingID u.toList).map (fun g => .str (String.mk g)) := by
  unfold extract_filename_metadata
  dsimp only
  rw [dget_condInsert_ne _ _ _ _ (by decide), dget_condInsert_ne _ _ _ _ (by decide),
      dget_condInsert_ne _ _ _ _ (by decide), dget_condInsert_ne _ _ _ _ (by decide),
      dget_condInsert_ne _ _ _ _ (by decide), dget_condInsert_ne _ _ _ _ (by decide)]
  exact dget_condInsert_self _ _ _ rfl

theorem dget_efm_mgrs_tile (u : String) :
    dget (extract_filename_metadata u) "mgrs_tile" =
      (searchLeft matchMgrsTile u.toList).map (fun g => .str (String.mk g)) := by
  unfold extract_filename_metadata
  dsimp only
  rw [dget_condInsert_ne _ _ _ _ (by decide), dget_condInsert_ne _ _ _ _ (by decide),
      dget_condInsert_ne _ _ _ _ (by decide), dget_condInsert_ne _ _ _ _ (by decide),
      dget_condInsert_ne _ _ _ _ (by decide)]
  exact dget_condInsert_self _ _ _ (by rw [dget_condInsert_ne _ _ _ _ (by decide)]; rfl)

theorem dget_efm_orbit_number (u : String) :
    dget (extract_filename_metadata u) "orbit_number_from_filename" =
      (searchLeft matchOrbitNumber u.toList).map (fun g => .str (String.mk g)) := by
  unfold extract_filename_metadata
  dsimp only
  rw [dget_condInsert_ne _ _ _ _ (by decide), dget_condInsert_ne _ _ _ _ (by decide),
      dget_condInsert_ne _ _ _ _ (by decide), dget_condInsert_ne _ _ _ _ (by decide)]
  exact dget_condInsert_self _ _ _ (by
        rw [dget_condInsert_ne _ _ _ _ (by decide), dget_condInsert_ne _ _ _ _ (by decide)]; rfl)

theorem dget_efm_version (u : String) :
    dget (extract_filename_metadata u) "version_from_filename" =
      (searchLeft matchVersion u.toList).map (fun g => .str (String.mk g)) := by
  unfold extract_filename_metadata
  dsimp only
  rw [dget_condInsert_ne _ _ _ _ (by decide), dget_condInsert_ne _ _ _ _ (by decide),
      dget_condInsert_ne _ _ _ _ (by decide)]
  exact dget_condInsert_self _ _ _ (by
        rw [dget_condInsert_ne _ _ _ _ (by decide), dget_condInsert_ne _ _ _ _ (by decide),
            dget_condInsert_ne _ _ _ _ (by decide)]; rfl)

theorem dget_efm_level (u : String) :
    dget (extract_filename_metadata u) "processing_level" =
      (searchLeft matchLevel u.toList).map (fun g => .str (String.mk g)) := by
  unfold extract_filename_metadata
  dsimp only
  rw [dget_condInsert_ne _ _ _ _ (by decide), dget_condInsert_ne _ _ _ _ (by decide)]
  exact dget_condInsert_self _ _ _ (by
        rw [dget_condInsert_ne _ _ _ _ (by decide), dget_condInsert_ne _ _ _ _ (by decide),
            dget_condInsert_ne _ _ _ _ (by decide), dget_condInsert_ne _ _ _ _ (by decide)]; rfl)

theorem dget_efm_scene (u : String) :
    dget (extract_filename_metadata u) "scene" =
      (searchLeft matchScene u.toList).map (fun g => .int (digitsToNat g)) := by
  unfold extract_filename_metadata
  dsimp only
  rw [dget_condInsert_ne _ _ _ _ (by decide)]
  exact dget_condInsert_self _ _ _ (by
        rw [dget_condInsert_ne _ _ _ _ (by decide), dget_condInsert_ne _ _ _ _ (by decide),
            dget_condInsert_ne _ _ _ _ (by decide), dget_condInsert_ne _ _ _ _ (by decide),
            dget_condInsert_ne _ _ _ _ (by decide)]; rfl)

theorem dget_efm_orbit_scene (u : String) :
    dget (extract_filename_metadata u) "orbit_scene" =
      (searchLeft matchOrbitScene u.toList).map (fun g => .str (String.mk g)) := by
  unfold extract_filename_metadata
  dsimp only
  exact dget_condInsert_self _ _ _ (by
        rw [dget_condInsert_ne _ _ _ _ (by decide), dget_condInsert_ne _ _ _ _ (by decide),
            dget_condInsert_ne _ _ _ _ (by decide), dget_condInsert_ne _ _ _ _ (by decide),
            dget_condInsert_ne _ _ _ _ (by decide), dget_condInsert_ne _ _ _ _ (by decide)]; rfl)

/-- The filename parser binds no key other than its seven. -/
theorem dget_efm_foreign (u : String) (k : String)
    (h1 : "processing_ID" ≠ k) (h2 : "mgrs_tile" ≠ k)
    (h3 : "orbit_number_from_filename" ≠ k) (h4 : "version_from_filename" ≠ k)
    (h5 : "processing_level" ≠ k) (h6 : "scene" ≠ k) (h7 : "orbit_scene" ≠ k) :
    dget (extract_filename_metadata u) k = Option.none := by
  unfold extract_filename_metadata
  dsimp only
  rw [dget_condInsert_ne _ _ _ _ h7, dget_condInsert_ne _ _ _ _ h6,
      dget_condInsert_ne _ _ _ _ h5, dget_condInsert_ne _ _ _ _ h4,
      dget_condInsert_ne _ _ _ _ h3, dget_condInsert_ne _ _ _ _ h2,
      dget_condInsert_ne _ _ _ _ h1]
  rfl

/-- A key outside the extractor's fixed vocabulary and outside the
`provider_date_`/`attr_` families is never bound by the extractor. -/
theorem dget_extract_foreign (tz : Int) (g : Granule) (m : Dict)
    (hm : extract_granule_metadata tz g = some m) (k : String)
    (h1 : ¬ k ∈ fixedExtractKeys)
    (h2 : k.data.take 14 ≠ "provider_date_".data)
    (h3 : k.data.take 5 ≠ "attr_".data) :
    dget m k = Option.none := by
  have hk : ∀ s, s ∈ fixedExtractKeys → s ≠ k := fun s hs he => h1 (he ▸ hs)
  simp only [extract_granule_metadata] at hm
  split at hm
  · exact absurd hm (by simp)
  · rename_i spatial heq
    rw [Option.some.injEq] at hm
    subst hm
    rw [dget_dupdate_attrs _ _ _ h3,
        dget_dinsert_ne _ _ _ _ (hk "parameter_names" (by decide)),
        dget_dupdate_orbit _ _ _ (hk "orbit_number" (by decide)).symm
          (hk "begin_orbit_number" (by decide)).symm
          (hk "end_orbit_number" (by decide)).symm,
        dget_dinsert_ne _ _ _ _ (hk "size_mb" (by decide)),
        dget_dupdate_platform _ _ _ (hk "platform_short_name" (by decide)).symm
          (hk "sensor" (by decide)).symm,
        dget_dinsert_ne _ _ _ _ (hk "production_date_time" (by decide)),
        dget_dinsert_ne _ _ _ _ (hk "day_night_flag" (by decide)),
        dget_dupdate_provider _ _ _ h2,
        dget_dupdate_spatial _ _ _ _ heq (hk "north_lat" (by decide)).symm
          (hk "south_lat" (by decide)).symm (hk "east_lon" (by decide)).symm
          (hk "west_lon" (by decide)).symm]
    split
    all_goals try rw [dget_dinsert_ne _ _ _ _ (hk "time_start" (by decide))]
    all_goals rw [dget_dinsert_ne _ _ _ _ (hk "ending_date_time" (by decide)),
        dget_dinsert_ne _ _ _ _ (hk "beginning_date_time" (by decide)),
        dget_dinsert_ne _ _ _ _ (hk "pge_version" (by decide)),
        dget_dinsert_ne _ _ _ _ (hk "version" (by decide)),
        dget_dinsert_ne _ _ _ _ (hk "short_name" (by decide))]
    all_goals split
    all_goals try rw [dget_dupdate_of_not_mem _ _ _
      (dget_efm_foreign _ _ (hk "processing_ID" (by decide)) (hk "mgrs_tile" (by decide))
        (hk "orbit_number_from_filename" (by decide)) (hk "version_from_filename" (by decide))
        (hk "processing_level" (by decide)) (hk "scene" (by decide))
        (hk "orbit_scene" (by decide)))]
    all_goals rw [dget_dinsert_ne _ _ _ _ (hk "processing_level" (by decide)),
        dget_dinsert_ne _ _ _ _ (hk "version_from_filename" (by decide)),
        dget_dinsert_ne _ _ _ _ (hk "orbit_number_from_filename" (by decide)),
        dget_dinsert_ne _ _ _ _ (hk "mgrs_tile" (by decide)),
        dget_dinsert_ne _ _ _ _ (hk "processing_ID" (by decide)),
        dget_dinsert_ne _ _ _ _ (hk "granule_ur" (by decide)),
        dget_dinsert_ne _ _ _ _ (hk "revision_date" (by decide)),
        dget_dinsert_ne _ _ _ _ (hk "format" (by decide)),
        dget_dinsert_ne _ _ _ _ (hk "provider_id" (by decide)),
        dget_dinsert_ne _ _ _ _ (hk "collection_concept_id" (by decide)),
        dget_dinsert_ne _ _ _ _ (hk "native_id" (by decide)),
        dget_dinsert_ne _ _ _ _ (hk "revision_id" (by decide)),
        dget_dinsert_ne _ _ _ _ (hk "concept_id" (by decide)),
        dget_dinsert_ne _ _ _ _ (hk "concept_type" (by decide))]
    all_goals rfl

-- ### Row-level lemmas for the reconciler

theorem containsKey_dinsert_of_mem (m : Dict) (k : String) (v : Value)
    (h : containsKey m k = true) (x : String) :
    containsKey (dinsert m k v) x = containsKey m x := by
  rw [containsKey_dinsert]
  by_cases hx : k = x
  · subst hx; simp [h]
  · simp [hx]

/-- The merge loop leaves keys that the metadata does not bind at all
unchanged. -/
theorem dget_transfer_of_no_key (row gm : Dict) (k : String)
    (h : dget gm k = Option.none) :
    dget (transfer_fields row gm) k = dget row k := by
  induction gm generalizing row with
  | nil => rfl
  | cons hd t ih =>
    obtain ⟨k', v'⟩ := hd
    have hk' : k' ≠ k := by
      intro he; subst he; simp [dget] at h
    have ht : dget t k = Option.none := by simpa [dget, hk'] using h
    rw [show transfer_fields row ((k', v') :: t) =
        transfer_fields (if v'.isNotNone && containsKey row k' then dinsert row k' v' else row)
          t from rfl, ih _ ht]
    split
    · exact dget_dinsert_ne _ _ _ _ hk'
    · rfl

/-- The merge loop ignores keys whose metadata value is `None`. -/
theorem dget_transfer_of_none_vals (row gm : Dict) (k : String)
    (h : ∀ v, (k, v) ∈ gm → v = Value.none) :
    dget (transfer_fields row gm) k = dget row k := by
  induction gm generalizing row with
  | nil => rfl
  | cons hd t ih =>
    obtain ⟨k', v'⟩ := hd
    rw [show transfer_fields row ((k', v') :: t) =
        transfer_fields (if v'.isNotNone && containsKey row k' then dinsert row k' v' else row)
          t from rfl, ih _ (fun v hv => h v (List.mem_cons_of_mem _ hv))]
    by_cases hk : k' = k
    · subst hk
      have hv' : v' = Value.none := h v' (List.mem_cons_self _ _)
      subst hv'
      simp [Value.isNotNone]
    · split
      · exact dget_dinsert_ne _ _ _ _ hk
      · rfl

/-- The merge loop changes a key only if the key already exists as a row
column and the new value is a non-null value bound to it in the
metadata. -/
theorem transfer_changes (row gm : Dict) (k : String) :
    dget (transfer_fields row gm) k = dget row k ∨
      (containsKey row k = true ∧ ∃ v, v ≠ Value.none ∧ (k, v) ∈ gm ∧
        dget (transfer_fields row gm) k = some v) := by
  induction gm generalizing row with
  | nil => exact Or.inl rfl
  | cons hd t ih =>
    obtain ⟨k', v'⟩ := hd
    rw [show transfer_fields row ((k', v') :: t) =
        transfer_fields (if v'.isNotNone && containsKey row k' then dinsert row k' v' else row)
          t from rfl]
    by_cases hcond : (v'.isNotNone && containsKey row k') = true
    · rw [if_pos hcond]
      rcases ih (dinsert row k' v') with h | ⟨hck, v, hv, hmem, hval⟩
      · by_cases hk : k' = k
        · subst hk
          have hc : v'.isNotNone = true ∧ containsKey row k' = true := by simpa using hcond
          refine Or.inr ⟨hc.2, v', ?_, List.mem_cons_self _ _, ?_⟩
          · intro he; subst he; simp [Value.isNotNone] at hcond
          · rw [h, dget_dinsert_self]
        · exact Or.inl (by rw [h, dget_dinsert_ne _ _ _ _ hk])
      · have hc : v'.isNotNone = true ∧ containsKey row k' = true := by simpa using hcond
        refine Or.inr ⟨?_, v, hv, List.mem_cons_of_mem _ hmem, hval⟩
        rw [← containsKey_dinsert_of_mem row k' v' hc.2 k]
        exact hck
    · rw [if_neg hcond]
      rcases ih row with h | ⟨hck, v, hv, hmem, hval⟩
      · exact Or.inl h
      · exact Or.inr ⟨hck, v, hv, List.mem_cons_of_mem _ hmem, hval⟩

/-- The datetime block touches only the two system time columns. -/
theorem dget_datetimeBlock_ne (tz : Int) (k : String)
    (h1 : "system:time_start" ≠ k) (h2 : "system:time_end" ≠ k)
    (row : Dict) (b : String) (ending : Option Value) :
    dget (datetimeBlock tz row b ending) k = dget row k := by
  unfold datetimeBlock
  repeat' split
  all_goals simp [dget_dinsert, h1, h2]

/-- A successful row update leaves every column outside the system time
columns, `band_type`, `EPSG` and the metadata's own keys unchanged. -/
theorem dget_update_row_ne (tz : Int) (row gm : Dict) (ft : String) (r' : Dict) (k : String)
    (hok : update_row_with_metadata tz row gm ft = .ok r')
    (h1 : "system:time_start" ≠ k) (h2 : "system:time_end" ≠ k)
    (h3 : "band_type" ≠ k) (h4 : "EPSG" ≠ k)
    (hgm : dget gm k = Option.none) :
    dget r' k = dget row k := by
  unfold update_row_with_metadata at hok
  dsimp only at hok
  split at hok
  · cases hok
  · rename_i row2 heq
    cases hok
    rw [dget_transfer_of_no_key _ _ _ hgm]
    repeat' split at heq
    all_goals cases heq
    all_goals simp [dget_dinsert, h1, h2, h3, h4, dget_datetimeBlock_ne tz k h1 h2]

theorem RowsRel.refl (l : List Dict) : RowsRel l l :=
  ⟨Eq.refl _, fun _ => Eq.refl _⟩

theorem RowsRel.trans {a b c : List Dict} (h1 : RowsRel a b) (h2 : RowsRel b c) :
    RowsRel a c :=
  ⟨h2.1.trans h1.1, fun i => (h2.2 i).trans (h1.2 i)⟩

/-- A successful `mapRows` pass relates input and output rows pointwise. -/
theorem mapRows_rel (f : Dict → Except Unit Dict) (l l' : List Dict)
    (h : mapRows f l = .ok l')
    (hf : ∀ r r', f r = .ok r' → dget r' "id_no" = dget r "id_no") :
    RowsRel l l' := by
  induction l generalizing l' with
  | nil =>
    cases h
    exact RowsRel.refl []
  | cons r t ih =>
    unfold mapRows at h
    split at h
    · cases h
    · rename_i r1 hr
      split at h
      · cases h
      · rename_i t1 ht
        cases h
        refine ⟨?_, ?_⟩
        · simpa using (ih t1 ht).1
        · intro i
          cases i with
          | zero => simpa using hf r r1 hr
          | succ j => simpa using (ih t1 ht).2 j

/-- Chaining `RowsRel`-preserving steps through `foldlM`. -/
theorem foldlM_rel {α : Type} (step : List Dict → α → Except Unit (List Dict)) (bs : List α)
    (hstep : ∀ rows b rows', b ∈ bs → step rows b = .ok rows' → RowsRel rows rows') :
    ∀ rows rows', List.foldlM step rows bs = .ok rows' → RowsRel rows rows' := by
  induction bs with
  | nil =>
    intro rows rows' h
    cases h
    exact RowsRel.refl _
  | cons b t ih =>
    intro rows rows' h
    rw [List.foldlM_cons] at h
    cases hsb : step rows b with
    | error e => rw [hsb] at h; cases h
    | ok mid =>
      rw [hsb] at h
      exact (hstep rows b mid (List.mem_cons_self _ _) hsb).trans
        (ih (fun rs x rs' hx => hstep rs x rs' (List.mem_cons_of_mem _ hx)) mid rows' h)

theorem dget_foldl_fields (fields : List String) (row : Dict) (k : String)
    (h : ¬ k ∈ fields) :
    dget (fields.foldl (fun r field => dinsert r field (.str "")) row) k = dget row k := by
  induction fields generalizing row with
  | nil => rfl
  | cons f t ih =>
    rw [List.foldl_cons, ih _ (fun hm => h (List.mem_cons_of_mem _ hm)),
      dget_dinsert_ne _ _ _ _ (fun he => h (List.mem_cons.mpr (Or.inl he.symm)))]

/-- Field initialization neither adds nor removes rows and keeps
`id_no`. -/
theorem init_rel (contents : List Dict) :
    RowsRel contents (initialize_metadata_fields contents) := by
  refine ⟨by simp [initialize_metadata_fields], ?_⟩
  intro i
  rw [initialize_metadata_fields, List.get?_map]
  cases contents.get? i with
  | none => rfl
  | some r =>
    dsimp only [Option.map]
    rw [dget_foldl_fields _ _ _ (by decide)]

theorem folderRowUpdate_id (ft fn : String) (row row' : Dict)
    (h : folderRowUpdate ft fn row = .ok row') :
    dget row' "id_no" = dget row "id_no" := by
  unfold folderRowUpdate at h
  simp only [bind, Except.bind] at h
  cases hm : rowMatches row fn with
  | error e => rw [hm] at h; cases h
  | ok m =>
    rw [hm] at h
    cases m with
    | false =>
      simp only [Bool.false_eq_true, if_false] at h
      cases h
      rfl
    | true =>
      simp only [if_true] at h
      simp only [pure, Except.pure] at h
      repeat' split at h
      all_goals cases h
      all_goals simp [dget_dinsert]

/-- Populating from download records preserves the row list, provided no
record's metadata binds `id_no` (extractor-produced metadata never
does). -/
theorem populate_files_rel (tz : Int) (files : List DownloadedFile)
    (rows rows' : List Dict)
    (hgm : ∀ df ∈ files, dget df.granule_metadata "id_no" = Option.none)
    (h : populate_from_downloaded_files tz rows files = .ok rows') :
    RowsRel rows rows' := by
  unfold populate_from_downloaded_files at h
  refine foldlM_rel _ _ ?_ rows rows' h
  intro rs df rs' hdf hstep
  refine mapRows_rel _ _ _ hstep ?_
  intro r r' hr
  simp only [bind, Except.bind] at hr
  cases hm : rowMatches r df.filename with
  | error e => rw [hm] at hr; cases hr
  | ok m =>
    rw [hm] at hr
    cases m with
    | true =>
      simp only [if_true] at hr
      exact dget_update_row_ne tz r _ _ r' "id_no" hr (by decide) (by decide)
        (by decide) (by decide) (hgm df hdf)
    | false =>
      simp only [if_false] at hr
      cases hr
      rfl

/-- Populating from the folder scan preserves the row list. -/
theorem populate_folders_rel (rows : List Dict) (folders : List Folder)
    (rows' : List Dict) (h : populate_from_folders rows folders = .ok rows') :
    RowsRel rows rows' := by
  unfold populate_from_folders at h
  refine foldlM_rel _ _ ?_ rows rows' h
  intro rs folder rs' _ hstep
  split at hstep
  · refine foldlM_rel _ _ ?_ rs rs' hstep
    intro rs2 fn rs2' _ hstep2
    split at hstep2
    · exact mapRows_rel _ _ _ hstep2 (fun r r' hr => folderRowUpdate_id _ _ _ _ hr)
    · cases hstep2
      exact RowsRel.refl _
  · cases hstep
    exact RowsRel.refl _

/-- The whole reconciliation pass preserves the row list. -/
theorem reconcile_rel (tz : Int) (contents : List Dict) (folders : List Folder)
    (files : List DownloadedFile) (rows' : List Dict)
    (hgm : ∀ df ∈ files, dget df.granule_metadata "id_no" = Option.none)
    (h : reconcile_rows tz contents folders files = .ok rows') :
    RowsRel contents rows' := by
  unfold reconcile_rows at h
  split at h
  · exact (init_rel contents).trans (populate_files_rel tz files _ rows' hgm h)
  · exact (init_rel contents).trans (populate_folders_rel _ folders rows' h)

-- ### Claim C8: tile codec

/-- C8: the tile codec returns `""` for inputs shorter than 3 characters
without raising; otherwise it returns `"EPSG326"` (third character in
`NPQRSTUVWX`) or `"EPSG327"` (otherwise) followed by the first two
characters; and the four concrete examples hold. -/
theorem C8_tile_codec :
    (∀ s : String, s.toList.length < 3 → get_epsg_from_mgrs s = "") ∧
    (∀ s : String, 3 ≤ s.toList.length →
      get_epsg_from_mgrs s =
        if ("NPQRSTUVWX".toList).contains (s.toList.getD 2 ' ')
        then "EPSG326" ++ String.mk (s.toList.take 2)
        else "EPSG327" ++ String.mk (s.toList.take 2)) ∧
    get_epsg_from_mgrs "18TUN" = "EPSG32618" ∧
    get_epsg_from_mgrs "47MDU" = "EPSG32747" ∧
    get_epsg_from_mgrs "" = "" ∧
    get_epsg_from_mgrs "1T" = "" := by
  refine ⟨?_, ?_, rfl, rfl, rfl, rfl⟩
  · intro s h
    simp only [get_epsg_from_mgrs]
    rw [if_pos h]
  · intro s h
    have h' : ¬ s.toList.length < 3 := by omega
    simp only [get_epsg_from_mgrs]
    rw [if_neg h']

/-- Witness for C8 at concrete inputs. -/
theorem C8_tile_codec_witness :
    get_epsg_from_mgrs "1T" = "" ∧ get_epsg_from_mgrs "18TUN" = "EPSG32618" :=
  ⟨C8_tile_codec.1 "1T" (by decide),
   (C8_tile_codec.2.1 "18TUN" (by decide)).trans (by decide)⟩

/-- C5: parsing the reference identifier yields the seven stated fields
(`scene` as the integer 3, the rest as strings), and the extractions are
independent of each other: running them in the reverse order produces the
same mapping (the parser is a pure function, so re-parsing the same
string trivially yields the same mapping again). -/
theorem C5_filename_parse :
    dget (extract_filename_metadata
      "ECOv002_L2T_LSTE_00048_003_18TUN_20250101T120000_0712_01") "version_from_filename" =
        some (.str "002") ∧
    dget (extract_filename_metadata
      "ECOv002_L2T_LSTE_00048_003_18TUN_20250101T120000_0712_01") "processing_level" =
        some (.str "L2T") ∧
    dget (extract_filename_metadata
      "ECOv002_L2T_LSTE_00048_003_18TUN_20250101T120000_0712_01") "orbit_number_from_filename" =
        some (.str "00048") ∧
    dget (extract_filename_metadata
      "ECOv002_L2T_LSTE_00048_003_18TUN_20250101T120000_0712_01") "scene" =
        some (.int 3) ∧
    dget (extract_filename_metadata
      "ECOv002_L2T_LSTE_00048_003_18TUN_20250101T120000_0712_01") "orbit_scene" =
        some (.str "00048_003") ∧
    dget (extract_filename_metadata
      "ECOv002_L2T_LSTE_00048_003_18TUN_20250101T120000_0712_01") "mgrs_tile" =
        some (.str "18TUN") ∧
    dget (extract_filename_metadata
      "ECOv002_L2T_LSTE_00048_003_18TUN_20250101T120000_0712_01") "processing_ID" =
        some (.str "0712_01") ∧
    (∀ k : String,
      dget (extract_filename_metadata_reordered
        "ECOv002_L2T_LSTE_00048_003_18TUN_20250101T120000_0712_01") k =
      dget (extract_filename_metadata
        "ECOv002_L2T_LSTE_00048_003_18TUN_20250101T120000_0712_01") k) := by
  refine ⟨rfl, rfl, rfl, rfl, rfl, rfl, rfl, ?_⟩
  intro k
  have h1 : extract_filename_metadata
      "ECOv002_L2T_LSTE_00048_003_18TUN_20250101T120000_0712_01" =
      [("processing_ID", .str "0712_01"), ("mgrs_tile", .str "18TUN"),
       ("orbit_number_from_filename", .str "00048"), ("version_from_filename", .str "002"),
       ("processing_level", .str "L2T"), ("scene", .int 3),
       ("orbit_scene", .str "00048_003")] := by rfl
  have h2 : extract_filename_metadata_reordered
      "ECOv002_L2T_LSTE_00048_003_18TUN_20250101T120000_0712_01" =
      [("orbit_scene", .str "00048_003"), ("scene", .int 3),
       ("processing_level", .str "L2T"), ("version_from_filename", .str "002"),
       ("orbit_number_from_filename", .str "00048"), ("mgrs_tile", .str "18TUN"),
       ("processing_ID", .str "0712_01")] := by rfl
  rw [h1, h2]
  simp only [dget]
  split_ifs <;> subst_vars <;> simp_all

/-- Counterexample to C4 as stated: both lists are present and non-empty,
the first calculated domain contains `BeginOrbitNumber` (value `0`) and
the first orbit-parameters entry contains `OrbitNumber` (value `5`), yet
the extracted `orbit_number` is the `OrbitParameters` value `5`, not the
`BeginOrbitNumber` value `0` — because the second tier's guard
`not metadata['orbit_number']` re-fires on the falsy `0`. -/
theorem C4_orbit_priority_counterexample :
    ummOrbitFalsy.OrbitCalculatedSpatialDomains =
      some [{ BeginOrbitNumber := some (.int 0), EndOrbitNumber := some (.int 0) }] ∧
    ummOrbitFalsy.OrbitParameters = some [{ OrbitNumber := some (.int 5) }] ∧
    dget (extract_orbit_metadata ummOrbitFalsy) "orbit_number" = some (.int 5) ∧
    Value.int 5 ≠ Value.int 0 :=
  ⟨rfl, rfl, rfl, by decide⟩

/-- C4 (amended): when the calculated-orbit-domains list is present and
non-empty, its first element contains `BeginOrbitNumber`, and that value
is truthy (non-null, non-zero, non-empty), the extracted `orbit_number`
equals that `BeginOrbitNumber` value — regardless of any
`OrbitParameters` entry. -/
theorem C4_orbit_priority (umm : Umm) (o : OrbitCalculatedSpatialDomain)
    (rest : List OrbitCalculatedSpatialDomain) (b : Value)
    (h1 : umm.OrbitCalculatedSpatialDomains = some (o :: rest))
    (h2 : o.BeginOrbitNumber = some b) (h3 : b.truthy = true) :
    dget (extract_orbit_metadata umm) "orbit_number" = some b := by
  have ht1 : dget (orbit_tier1 umm) "orbit_number" = some b := by
    unfold orbit_tier1
    rw [h1]
    simp only [List.head?]
    rw [h2]
    simp [dget_dinsert, dinsert, dget]
  unfold extract_orbit_metadata orbit_tier2
  cases hop : umm.OrbitParameters with
  | none => exact ht1
  | some ops => simp [ht1, h3]

/-- Witness for C4 (amended) at a record with a truthy begin orbit `7`
and a competing `OrbitParameters` value `9`. -/
theorem C4_orbit_priority_witness :
    dget (extract_orbit_metadata
      { OrbitCalculatedSpatialDomains :=
          some [{ BeginOrbitNumber := some (.int 7), EndOrbitNumber := some (.int 8) }],
        OrbitParameters := some [{ OrbitNumber := some (.int 9) }] }) "orbit_number" =
      some (.int 7) :=
  C4_orbit_priority _ _ [] (.int 7) rfl rfl (by decide)

/-- Counterexample to C6 as stated: `scene` is not the sole field that is
left absent on a pattern miss — `orbit_scene` is also never initialised,
so for the granule UR `"A"` (which matches no pattern) the extractor's
output has no `orbit_scene` key at all, where the claim demands the
empty-string default. -/
theorem C6_unmatched_defaults_counterexample :
    granuleBareUR.umm.GranuleUR = some "A" ∧
    ("A" : String) ≠ "" ∧
    searchLeft matchOrbitScene "A".toList = Option.none ∧
    (extract_granule_metadata 0 granuleBareUR).map (fun m => dget m "orbit_scene") =
      some Option.none ∧
    some Option.none ≠ some (some (Value.str "")) :=
  ⟨rfl, by decide, by decide, by decide, by decide⟩

/-- C6 (amended): for every granule with a non-empty granule UR, a
filename pattern that finds no match leaves `processing_ID`,
`mgrs_tile`, `orbit_number_from_filename`, `version_from_filename` and
`processing_level` at their empty-string defaults, while the two fields
that are never initialised — `scene` **and** `orbit_scene` — are entirely
absent from the output mapping when unmatched. -/
theorem C6_unmatched_defaults (tz : Int) (g : Granule) (m : Dict) (u : String)
    (hm : extract_granule_metadata tz g = some m)
    (hu : g.umm.GranuleUR = some u) (hne : u ≠ "") :
    (searchLeft matchProcessingID u.toList = Option.none →
      dget m "processing_ID" = some (.str "")) ∧
    (searchLeft matchMgrsTile u.toList = Option.none →
      dget m "mgrs_tile" = some (.str "")) ∧
    (searchLeft matchOrbitNumber u.toList = Option.none →
      dget m "orbit_number_from_filename" = some (.str "")) ∧
    (searchLeft matchVersion u.toList = Option.none →
      dget m "version_from_filename" = some (.str "")) ∧
    (searchLeft matchLevel u.toList = Option.none →
      dget m "processing_level" = some (.str "")) ∧
    (searchLeft matchScene u.toList = Option.none →
      dget m "scene" = Option.none) ∧
    (searchLeft matchOrbitScene u.toList = Option.none →
      dget m "orbit_scene" = Option.none) := by
  simp only [extract_granule_metadata] at hm
  split at hm
  · exact absurd hm (by simp)
  · rename_i spatial heq
    rw [Option.some.injEq] at hm
    subst hm
    simp only [hu, Option.getD_some] at heq ⊢
    rw [if_pos hne]
    refine ⟨?_, ?_, ?_, ?_, ?_, ?_, ?_⟩ <;> intro hno <;>
      rw [dget_dupdate_attrs _ _ _ (by decide),
        dget_dinsert_ne _ _ _ _ (by decide),
        dget_dupdate_orbit _ _ _ (by decide) (by decide) (by decide),
        dget_dinsert_ne _ _ _ _ (by decide),
        dget_dupdate_platform _ _ _ (by decide) (by decide),
        dget_dinsert_ne _ _ _ _ (by decide),
        dget_dinsert_ne _ _ _ _ (by decide),
        dget_dupdate_provider _ _ _ (by decide),
        dget_dupdate_spatial _ _ _ _ heq (by decide) (by decide) (by decide) (by decide)]
    · -- processing_ID
      split
      all_goals try rw [dget_dinsert_ne _ "time_start" _ _ (by decide)]
      all_goals rw [dget_dinsert_ne _ _ _ _ (by decide),
        dget_dinsert_ne _ _ _ _ (by decide), dget_dinsert_ne _ _ _ _ (by decide),
        dget_dinsert_ne _ _ _ _ (by decide), dget_dinsert_ne _ _ _ _ (by decide),
        dget_dupdate_of_not_mem _ _ _ (by rw [dget_efm_processing_ID, hno]; rfl),
        dget_dinsert_ne _ _ _ _ (by decide), dget_dinsert_ne _ _ _ _ (by decide),
        dget_dinsert_ne _ _ _ _ (by decide), dget_dinsert_ne _ _ _ _ (by decide)]
      all_goals exact dget_dinsert_self _ _ _
    · -- mgrs_tile
      split
      all_goals try rw [dget_dinsert_ne _ "time_start" _ _ (by decide)]
      all_goals rw [dget_dinsert_ne _ _ _ _ (by decide),
        dget_dinsert_ne _ _ _ _ (by decide), dget_dinsert_ne _ _ _ _ (by decide),
        dget_dinsert_ne _ _ _ _ (by decide), dget_dinsert_ne _ _ _ _ (by decide),
        dget_dupdate_of_not_mem _ _ _ (by rw [dget_efm_mgrs_tile, hno]; rfl),
        dget_dinsert_ne _ _ _ _ (by decide), dget_dinsert_ne _ _ _ _ (by decide),
        dget_dinsert_ne _ _ _ _ (by decide)]
      all_goals exact dget_dinsert_self _ _ _
    · -- orbit_number_from_filename
      split
      all_goals try rw [dget_dinsert_ne _ "time_start" _ _ (by decide)]
      all_goals rw [dget_dinsert_ne _ _ _ _ (by decide),
        dget_dinsert_ne _ _ _ _ (by decide), dget_dinsert_ne _ _ _ _ (by decide),
        dget_dinsert_ne _ _ _ _ (by decide), dget_dinsert_ne _ _ _ _ (by decide),
        dget_dupdate_of_not_mem _ _ _ (by rw [dget_efm_orbit_number, hno]; rfl),
        dget_dinsert_ne _ _ _ _ (by decide), dget_dinsert_ne _ _ _ _ (by decide)]
      all_goals exact dget_dinsert_self _ _ _
    · -- version_from_filename
      split
      all_goals try rw [dget_dinsert_ne _ "time_start" _ _ (by decide)]
      all_goals rw [dget_dinsert_ne _ _ _ _ (by decide),
        dget_dinsert_ne _ _ _ _ (by decide), dget_dinsert_ne _ _ _ _ (by decide),
        dget_dinsert_ne _ _ _ _ (by decide), dget_dinsert_ne _ _ _ _ (by decide),
        dget_dupdate_of_not_mem _ _ _ (by rw [dget_efm_version, hno]; rfl),
        dget_dinsert_ne _ _ _ _ (by decide)]
      all_goals exact dget_dinsert_self _ _ _
    · -- processing_level
      split
      all_goals try rw [dget_dinsert_ne _ "time_start" _ _ (by decide)]
      all_goals rw [dget_dinsert_ne _ _ _ _ (by decide),
        dget_dinsert_ne _ _ _ _ (by decide), dget_dinsert_ne _ _ _ _ (by decide),
        dget_dinsert_ne _ _ _ _ (by decide), dget_dinsert_ne _ _ _ _ (by decide),
        dget_dupdate_of_not_mem _ _ _ (by rw [dget_efm_level, hno]; rfl)]
      all_goals exact dget_dinsert_self _ _ _
    · -- scene: absent entirely
      split
      all_goals try rw [dget_dinsert_ne _ "time_start" _ _ (by decide)]
      all_goals rw [dget_dinsert_ne _ _ _ _ (by decide),
        dget_dinsert_ne _ _ _ _ (by decide), dget_dinsert_ne _ _ _ _ (by decide),
        dget_dinsert_ne _ _ _ _ (by decide), dget_dinsert_ne _ _ _ _ (by decide),
        dget_dupdate_of_not_mem _ _ _ (by rw [dget_efm_scene, hno]; rfl),
        dget_dinsert_ne _ _ _ _ (by decide), dget_dinsert_ne _ _ _ _ (by decide),
        dget_dinsert_ne _ _ _ _ (by decide), dget_dinsert_ne _ _ _ _ (by decide),
        dget_dinsert_ne _ _ _ _ (by decide), dget_dinsert_ne _ _ _ _ (by decide),
        dget_dinsert_ne _ _ _ _ (by decide), dget_dinsert_ne _ _ _ _ (by decide),
        dget_dinsert_ne _ _ _ _ (by decide), dget_dinsert_ne _ _ _ _ (by decide),
        dget_dinsert_ne _ _ _ _ (by decide), dget_dinsert_ne _ _ _ _ (by decide),
        dget_dinsert_ne _ _ _ _ (by decide), dget_dinsert_ne _ _ _ _ (by decide)]
      all_goals rfl
    · -- orbit_scene: absent entirely
      split
      all_goals try rw [dget_dinsert_ne _ "time_start" _ _ (by decide)]
      all_goals rw [dget_dinsert_ne _ _ _ _ (by decide),
        dget_dinsert_ne _ _ _ _ (by decide), dget_dinsert_ne _ _ _ _ (by decide),
        dget_dinsert_ne _ _ _ _ (by decide), dget_dinsert_ne _ _ _ _ (by decide),
        dget_dupdate_of_not_mem _ _ _ (by rw [dget_efm_orbit_scene, hno]; rfl),
        dget_dinsert_ne _ _ _ _ (by decide), dget_dinsert_ne _ _ _ _ (by decide),
        dget_dinsert_ne _ _ _ _ (by decide), dget_dinsert_ne _ _ _ _ (by decide),
        dget_dinsert_ne _ _ _ _ (by decide), dget_dinsert_ne _ _ _ _ (by decide),
        dget_dinsert_ne _ _ _ _ (by decide), dget_dinsert_ne _ _ _ _ (by decide),
        dget_dinsert_ne _ _ _ _ (by decide), dget_dinsert_ne _ _ _ _ (by decide),
        dget_dinsert_ne _ _ _ _ (by decide), dget_dinsert_ne _ _ _ _ (by decide),
        dget_dinsert_ne _ _ _ _ (by decide), dget_dinsert_ne _ _ _ _ (by decide)]
      all_goals rfl

/-- Witness for C6 (amended) at the granule with UR `"A"`. -/
theorem C6_unmatched_defaults_witness :
    ∃ m, extract_granule_metadata 0 granuleBareUR = some m ∧
      dget m "mgrs_tile" = some (Value.str "") ∧ dget m "scene" = Option.none := by
  refine ⟨_, rfl, ?_, ?_⟩
  · exact (C6_unmatched_defaults 0 granuleBareUR _ "A" rfl rfl (by decide)).2.1 (by decide)
  · exact (C6_unmatched_defaults 0 granuleBareUR _ "A" rfl rfl (by decide)).2.2.2.2.2.1 (by decide)

set_option maxHeartbeats 1600000 in
/-- C7: the `Z`-suffixed and `+00:00`-suffixed forms of the same instant
convert to the same integer millisecond value (1735732800000); every
input the ISO parser rejects (after `Z` normalization) yields `""`
instead of an exception; and on a granule whose `BeginningDateTime` is
`"not-a-date"` the extraction still completes, with `time_start` present
but empty and the remaining fields (the raw date string, the day/night
flag, the concept id) still extracted. -/
theorem C7_timestamp_conversion (tz : Int) :
    convert_to_timestamp tz "2025-01-01T12:00:00Z" =
      convert_to_timestamp tz "2025-01-01T12:00:00+00:00" ∧
    convert_to_timestamp tz "2025-01-01T12:00:00Z" = .int 1735732800000 ∧
    (∀ s : String, fromisoformat (pyReplace s "Z" "+00:00") = Option.none →
      convert_to_timestamp tz s = .str "") ∧
    (extract_granule_metadata 0 granuleBadDate).map (fun m => dget m "time_start") =
      some (some (.str "")) ∧
    (extract_granule_metadata 0 granuleBadDate).map (fun m => dget m "beginning_date_time") =
      some (some (.str "not-a-date")) ∧
    (extract_granule_metadata 0 granuleBadDate).map (fun m => dget m "day_night_flag") =
      some (some (.str "Day")) ∧
    (extract_granule_metadata 0 granuleBadDate).map (fun m => dget m "concept_id") =
      some (some (.str "G-1")) := by
  refine ⟨rfl, rfl, ?_, by decide, by decide, by decide, by decide⟩
  intro s h
  unfold convert_to_timestamp
  rw [h]

/-- Witness for C7 at the malformed input `"not-a-date"`. -/
theorem C7_timestamp_conversion_witness :
    convert_to_timestamp 0 "not-a-date" = Value.str "" :=
  (C7_timestamp_conversion 0).2.2.1 "not-a-date" rfl

/-- C1: on a table whose only row has `id_no = "ABC"` and a single
record whose filename contains `"ABC"` and whose FlatMetadata maps
`band_type` to `"LST"` and nothing else, `enhance_metadata_csv` succeeds
and writes the one row with `band_type = "LST"`, `id_no` intact, and
every other vocabulary column the empty string — whatever the record's
file-type tag and the local offset are.  The second conjunct is the
general merge contract: the merge changes a key only if it already
exists as a row column and the metadata binds it to a non-null value. -/
theorem C1_round_trip :
    (∀ (tz : Int) (fname folder ft : String),
      isSubstr "ABC" fname = true →
      enhance_metadata_csv tz true true true [[("id_no", Value.str "ABC")]] []
        [⟨fname, folder, ft, [("band_type", Value.str "LST")]⟩] =
        (true, .written [rowFinalC1]) ∧
      dget rowFinalC1 "band_type" = some (.str "LST") ∧
      dget rowFinalC1 "id_no" = some (.str "ABC") ∧
      ∀ f ∈ field_list, f ≠ "band_type" → dget rowFinalC1 f = some (.str "")) ∧
    (∀ (row gm : Dict) (k : String),
      dget (transfer_fields row gm) k = dget row k ∨
        (containsKey row k = true ∧ ∃ v, v ≠ Value.none ∧ (k, v) ∈ gm ∧
          dget (transfer_fields row gm) k = some v)) := by
  constructor
  · intro tz fname folder ft h
    refine ⟨?_, by decide, by decide, by decide⟩
    have hrm : rowMatches
        (field_list.foldl (fun r field => dinsert r field (Value.str ""))
          [("id_no", Value.str "ABC")]) fname =
        .ok (isSubstr "ABC" fname) := by rfl
    simp only [enhance_metadata_csv, reconcile_rows, initialize_metadata_fields, List.map,
      populate_from_downloaded_files, List.foldlM, mapRows, bind, Except.bind, hrm, h]
    rfl
  · exact transfer_changes

/-- Witness for C1 at the filename `"xABCy"`. -/
theorem C1_round_trip_witness :
    enhance_metadata_csv 0 true true true [[("id_no", Value.str "ABC")]] []
      [⟨"xABCy", "f", "WATER", [("band_type", Value.str "LST")]⟩] =
      (true, FileOutcome.written [rowFinalC1]) :=
  (C1_round_trip.1 0 "xABCy" "f" "WATER" (by decide)).1

-- ### Claim C2: no row created, deleted or re-keyed

/-- C2: whenever `enhance_metadata_csv` persists the table, the written
table has exactly as many rows as were loaded, in the same order, with
the same `id_no` values — for every list of DownloadRecords whose
FlatMetadata does not bind `id_no`, which holds for all
extractor-produced metadata (second conjunct). -/
theorem C2_rows_preserved :
    (∀ (tz : Int) (fe lo wo : Bool) (contents : List Dict) (folders : List Folder)
       (files : List DownloadedFile) (rows : List Dict),
      (∀ df ∈ files, dget df.granule_metadata "id_no" = Option.none) →
      (enhance_metadata_csv tz fe lo wo contents folders files).2 = .written rows →
      rows.length = contents.length ∧
      ∀ i : Nat, (rows.get? i).map (fun r => dget r "id_no") =
        (contents.get? i).map (fun r => dget r "id_no")) ∧
    (∀ (tz : Int) (g : Granule) (m : Dict),
      extract_granule_metadata tz g = some m → dget m "id_no" = Option.none) := by
  constructor
  · intro tz fe lo wo contents folders files rows hgm hout
    unfold enhance_metadata_csv at hout
    split at hout
    · cases hout
    · split at hout
      · cases hout
      · split at hout
        · cases hout
        · rename_i rows2 hrec
          have hrel := reconcile_rel tz contents folders files rows2 hgm hrec
          split at hout
          · cases hout
            exact ⟨hrel.1, hrel.2⟩
          · split at hout
            · cases hout
              exact ⟨hrel.1, hrel.2⟩
            · cases hout
  · intro tz g m hm
    exact dget_extract_foreign tz g m hm "id_no" (by decide) (by decide) (by decide)

/-- Witness for C2 on a one-row table and one matching record. -/
theorem C2_rows_preserved_witness :
    ∃ rows, (enhance_metadata_csv 0 true true true [[("id_no", Value.str "A")]] []
      [⟨"A.tif", "f", "t", []⟩]).2 = FileOutcome.written rows ∧ rows.length = 1 := by
  refine ⟨_, rfl, ?_⟩
  exact (C2_rows_preserved.1 0 true true true [[("id_no", Value.str "A")]] []
    [⟨"A.tif", "f", "t", []⟩] _ (by intro df hdf; simp at hdf; subst hdf; rfl) rfl).1

-- ### Claim C3: error policy of enhance_metadata_csv

/-- C3: the reconciler never raises to its caller — a missing table file
reports `false` with the file untouched; a failed read, a raise during
populate, or a failed write each report `false`; and it reports `true`
exactly when the file existed, the read succeeded, the processed row set
was non-empty (writing an empty one raises on `rows[0]` after the
truncating open) and the write completed. -/
theorem C3_error_policy (tz : Int) (fe lo wo : Bool) (contents : List Dict)
    (folders : List Folder) (files : List DownloadedFile) :
    (fe = false →
      enhance_metadata_csv tz fe lo wo contents folders files = (false, .untouched)) ∧
    (lo = false →
      (enhance_metadata_csv tz fe lo wo contents folders files).1 = false) ∧
    (reconcile_rows tz contents folders files = .error () →
      (enhance_metadata_csv tz fe lo wo contents folders files).1 = false) ∧
    (wo = false →
      (enhance_metadata_csv tz fe lo wo contents folders files).1 = false) ∧
    ((enhance_metadata_csv tz fe lo wo contents folders files).1 = true ↔
      fe = true ∧ lo = true ∧ wo = true ∧
      ∃ rows, reconcile_rows tz contents folders files = .ok rows ∧ rows ≠ []) := by
  cases fe <;> cases lo <;> cases wo <;>
    rcases hrec : reconcile_rows tz contents folders files with e | rows <;>
      simp [enhance_metadata_csv, hrec] <;> cases rows <;> simp

-- ### Claim C9: system time columns from time_start

/-- C9: a successful row update from metadata carrying a truthy
`time_start` sets both `system:time_start` and `system:time_end` to that
same value, ignoring `ending_date_time`; the hypotheses that the
metadata itself binds neither system column hold for every
extractor-produced metadata (second conjunct). -/
theorem C9_time_fields :
    (∀ (tz : Int) (row gm : Dict) (ft : String) (r' : Dict) (v : Value),
      update_row_with_metadata tz row gm ft = .ok r' →
      dget gm "time_start" = some v → v.truthy = true →
      dget gm "system:time_start" = Option.none →
      dget gm "system:time_end" = Option.none →
      dget r' "system:time_start" = some v ∧ dget r' "system:time_end" = some v) ∧
    (∀ (tz : Int) (g : Granule) (m : Dict),
      extract_granule_metadata tz g = some m →
      dget m "system:time_start" = Option.none ∧
        dget m "system:time_end" = Option.none) := by
  constructor
  · intro tz row gm ft r' v hok hv htr hs1 hs2
    have hcond : truthyKey gm "time_start" = true := by
      unfold truthyKey
      rw [hv]
      exact htr
    unfold update_row_with_metadata at hok
    dsimp only at hok
    rw [hcond] at hok
    rw [if_pos rfl] at hok
    rw [hv] at hok
    simp only [Option.getD_some] at hok
    split at hok
    · cases hok
    · rename_i row2 heq
      cases hok
      constructor
      · rw [dget_transfer_of_no_key _ _ _ hs1]
        repeat' split at heq
        all_goals cases heq
        all_goals simp [dget_dinsert]
      · rw [dget_transfer_of_no_key _ _ _ hs2]
        repeat' split at heq
        all_goals cases heq
        all_goals simp [dget_dinsert]
  · intro tz g m hm
    exact ⟨dget_extract_foreign tz g m hm "system:time_start" (by decide) (by decide) (by decide),
      dget_extract_foreign tz g m hm "system:time_end" (by decide) (by decide) (by decide)⟩

/-- Witness for C9 at metadata with `time_start = 5`. -/
theorem C9_time_fields_witness :
    ∃ r', update_row_with_metadata 0 [] [("time_start", Value.int 5)] "x" = .ok r' ∧
      dget r' "system:time_start" = some (Value.int 5) ∧
      dget r' "system:time_end" = some (Value.int 5) := by
  refine ⟨_, rfl, ?_, ?_⟩
  · exact (C9_time_fields.1 0 [] [("time_start", Value.int 5)] "x" _ (Value.int 5)
      rfl rfl (by decide) rfl rfl).1
  · exact (C9_time_fields.1 0 [] [("time_start", Value.int 5)] "x" _ (Value.int 5)
      rfl rfl (by decide) rfl rfl).2

-- ### Claim C10: band_type from the file-type tag

/-- C10: the row update unconditionally assigns the record's file-type
tag to `band_type` before the generic merge, so whenever the metadata
does not bind `band_type` to a non-null value, the final `band_type` is
exactly the file-type tag, whatever the row held before. -/
theorem C10_band_type (tz : Int) (row gm : Dict) (ft : String) (r' : Dict)
    (hgm : ∀ v, ("band_type", v) ∈ gm → v = Value.none)
    (hok : update_row_with_metadata tz row gm ft = .ok r') :
    dget r' "band_type" = some (.str ft) := by
  unfold update_row_with_metadata at hok
  dsimp only at hok
  split at hok
  · cases hok
  · rename_i row2 heq
    cases hok
    rw [dget_transfer_of_none_vals _ _ _ hgm]
    repeat' split at heq
    all_goals cases heq
    all_goals simp [dget_dinsert]

/-- Witness for C10 with empty metadata and tag `"LST"`. -/
theorem C10_band_type_witness :
    ∃ r', update_row_with_metadata 0 [("id_no", Value.str "A")] [] "LST" = .ok r' ∧
      dget r' "band_type" = some (Value.str "LST") :=
  ⟨_, rfl, C10_band_type 0 [("id_no", Value.str "A")] [] "LST" _
    (by intro v hv; simp at hv) rfl⟩

end Ecostress
